import Mathlib

/-!
Libre Solar charge controller: battery charger core

Shallow embedding of `src/bat_charger.cpp` (battery profile derivation, profile
plausibility check, profile overwrite, state-of-charge estimation, discharge
guard and the charging state machine) together with the properties proved
about it.

Modelling conventions

* C `float`/`double` values are idealised as rationals (`ℚ`): arithmetic is
  exact, there is no rounding, no NaN and no infinity.  Division is the total
  division of `ℚ` (`x / 0 = 0`), where the C code would produce inf/NaN.
* C `int` values (durations, timestamps, counters) are unbounded integers
  (`Int`); integer division and the `(int)` cast truncate toward zero as in C.
  The header `bat_charger.h` declaring the exact field widths is not part of
  the analysed sources.
* Pointers are replaced by explicit state passing: a function that mutates
  `*bat`, `*port` or the global `dev_stat` returns the updated values.
* `uptime()` (from `helper.h`) is an input of the tick, read once per call.
* `DcBus::droop_voltage` (from `dc_bus.h`) is not part of the analysed
  sources and is taken as a parameter of the tick function.
-/

namespace ChargeController

/-! ## Data model -/

/-- Battery chemistry tag (`BatType` of `bat_charger.h`). -/
inductive BatType where
  | BAT_TYPE_NONE
  | BAT_TYPE_FLOODED
  | BAT_TYPE_GEL
  | BAT_TYPE_AGM
  | BAT_TYPE_LFP
  | BAT_TYPE_NMC
  | BAT_TYPE_NMC_HV
  deriving DecidableEq, Repr

/-- PCB maximum load switch current, `#define LOAD_CURRENT_MAX 20` in
`pcbs/mppt_2420_lc_0v10.h`. -/
def LOAD_CURRENT_MAX : ℚ := 20

/-- Battery configuration (`BatConf`): every field that `bat_charger.cpp`
reads or writes. -/
structure BatConf where
  nominal_capacity : ℚ
  charge_current_max : ℚ
  discharge_current_max : ℚ
  time_limit_recharge : Int
  topping_duration : Int
  charge_temp_max : ℚ
  charge_temp_min : ℚ
  discharge_temp_max : ℚ
  discharge_temp_min : ℚ
  voltage_absolute_max : ℚ
  topping_voltage : ℚ
  voltage_recharge : ℚ
  voltage_load_disconnect : ℚ
  voltage_load_reconnect : ℚ
  internal_resistance : ℚ
  wire_resistance : ℚ
  voltage_absolute_min : ℚ
  ocv_full : ℚ
  ocv_empty : ℚ
  topping_current_cutoff : ℚ
  trickle_enabled : Bool
  trickle_recharge_time : Int
  trickle_voltage : ℚ
  equalization_enabled : Bool
  equalization_voltage : ℚ
  equalization_duration : Int
  equalization_current_limit : ℚ
  equalization_trigger_days : Int
  equalization_trigger_deep_cycles : Int
  temperature_compensation : ℚ
  deriving DecidableEq

/-- A zero-initialised `BatConf` (a C global `BatConf bat_conf;`). -/
def BatConf.zero : BatConf where
  nominal_capacity := 0
  charge_current_max := 0
  discharge_current_max := 0
  time_limit_recharge := 0
  topping_duration := 0
  charge_temp_max := 0
  charge_temp_min := 0
  discharge_temp_max := 0
  discharge_temp_min := 0
  voltage_absolute_max := 0
  topping_voltage := 0
  voltage_recharge := 0
  voltage_load_disconnect := 0
  voltage_load_reconnect := 0
  internal_resistance := 0
  wire_resistance := 0
  voltage_absolute_min := 0
  ocv_full := 0
  ocv_empty := 0
  topping_current_cutoff := 0
  trickle_enabled := false
  trickle_recharge_time := 0
  trickle_voltage := 0
  equalization_enabled := false
  equalization_voltage := 0
  equalization_duration := 0
  equalization_current_limit := 0
  equalization_trigger_days := 0
  equalization_trigger_deep_cycles := 0
  temperature_compensation := 0

/-! ## Profile derivation and plausibility check -/

/-- The assignments of `battery_conf_init` that precede the `switch`
(lines 21-33). -/
def battery_conf_init_common (bat : BatConf) (nominal_capacity : ℚ) : BatConf :=
  { bat with
    nominal_capacity := nominal_capacity
    charge_current_max := nominal_capacity
    discharge_current_max := nominal_capacity
    time_limit_recharge := 60
    topping_duration := 120 * 60
    charge_temp_max := 50
    charge_temp_min := -10
    discharge_temp_max := 50
    discharge_temp_min := -10 }

/-- The function `battery_conf_init` (lines 19-131): writes the defaults of
the given chemistry into `bat`; fields the chosen branch does not assign keep
the value they had in `bat`. -/
def battery_conf_init (bat : BatConf) (type : BatType) (num_cells : Int)
    (nominal_capacity : ℚ) : BatConf :=
  let b := battery_conf_init_common bat nominal_capacity
  let n : ℚ := (num_cells : ℚ)
  match type with
  | .BAT_TYPE_FLOODED | .BAT_TYPE_AGM | .BAT_TYPE_GEL =>
    { b with
      voltage_absolute_max := n * 2.45
      topping_voltage := n * 2.4
      voltage_recharge := n * 2.3
      voltage_load_disconnect := n * 1.95
      voltage_load_reconnect := n * 2.10
      internal_resistance := n * (1.95 - 1.80) / LOAD_CURRENT_MAX
      voltage_absolute_min := n * 1.6
      ocv_full := n * (if type = .BAT_TYPE_FLOODED then 2.10 else 2.15)
      ocv_empty := n * 1.90
      topping_current_cutoff := b.nominal_capacity * 0.04
      trickle_enabled := true
      trickle_recharge_time := 30 * 60
      trickle_voltage := n * (if type = .BAT_TYPE_FLOODED then 2.35 else 2.3)
      equalization_enabled := false
      equalization_voltage := n * (if type = .BAT_TYPE_FLOODED then 2.50 else 2.45)
      equalization_duration := 60 * 60
      equalization_current_limit := (1.0 / 7.0) * b.nominal_capacity
      equalization_trigger_days := 60
      equalization_trigger_deep_cycles := 10
      temperature_compensation := -0.003 }
  | .BAT_TYPE_LFP =>
    { b with
      voltage_absolute_max := n * 3.60
      topping_voltage := n * 3.55
      voltage_recharge := n * 3.35
      voltage_load_disconnect := n * 3.0
      voltage_load_reconnect := n * 3.15
      internal_resistance := (n * 3.0) * 0.05 / LOAD_CURRENT_MAX
      voltage_absolute_min := n * 2.0
      ocv_full := n * 3.4
      ocv_empty := n * 3.0
      topping_current_cutoff := b.nominal_capacity / 10
      trickle_enabled := false
      equalization_enabled := false
      temperature_compensation := 0.0
      charge_temp_min := 0 }
  | .BAT_TYPE_NMC | .BAT_TYPE_NMC_HV =>
    { b with
      topping_voltage := n * (if type = .BAT_TYPE_NMC_HV then 4.35 else 4.20)
      voltage_absolute_max :=
        n * (if type = .BAT_TYPE_NMC_HV then 4.35 else 4.20) + n * 0.05
      voltage_recharge := n * 3.9
      voltage_load_disconnect := n * 3.3
      voltage_load_reconnect := n * 3.6
      internal_resistance := (n * 3.3) * 0.05 / LOAD_CURRENT_MAX
      voltage_absolute_min := n * 2.5
      ocv_full := n * 4.0
      ocv_empty := n * 3.0
      topping_current_cutoff := b.nominal_capacity / 10
      trickle_enabled := false
      equalization_enabled := false
      temperature_compensation := 0.0
      charge_temp_min := 0 }
  | .BAT_TYPE_NONE => b

/-- The function `battery_conf_check` (lines 134-171): plausibility check of a
battery configuration. -/
def battery_conf_check (bat_conf : BatConf) : Bool :=
  decide (bat_conf.voltage_load_reconnect > bat_conf.voltage_load_disconnect + 0.4) &&
  decide (bat_conf.voltage_recharge < bat_conf.topping_voltage - 0.4) &&
  decide (bat_conf.voltage_recharge > bat_conf.voltage_load_disconnect + 1) &&
  decide (bat_conf.voltage_load_disconnect > bat_conf.voltage_absolute_min + 0.4) &&
  decide (bat_conf.internal_resistance <
    bat_conf.voltage_load_disconnect * 0.1 / LOAD_CURRENT_MAX) &&
  decide (bat_conf.wire_resistance < bat_conf.topping_voltage * 0.03 / LOAD_CURRENT_MAX) &&
  decide (bat_conf.topping_current_cutoff < bat_conf.nominal_capacity / 10.0) &&
  decide (bat_conf.topping_current_cutoff > 0.01) &&
  (bat_conf.trickle_enabled == false ||
    (decide (bat_conf.trickle_voltage < bat_conf.topping_voltage) &&
     decide (bat_conf.trickle_voltage > bat_conf.voltage_load_disconnect)))

/-- The three lead-acid chemistry tags (the first `case` group of
`battery_conf_init`). -/
def is_lead_acid (type : BatType) : Bool :=
  match type with
  | .BAT_TYPE_FLOODED | .BAT_TYPE_AGM | .BAT_TYPE_GEL => true
  | _ => false

/-- The function `battery_conf_overwrite` restricted to the profile (lines
177-199): copies the listed fields from `source` into `destination`, and the
nominal capacity when it differs. -/
def battery_conf_overwrite_conf (source destination : BatConf) : BatConf :=
  let d : BatConf :=
    { destination with
      topping_voltage := source.topping_voltage
      voltage_recharge := source.voltage_recharge
      voltage_load_reconnect := source.voltage_load_reconnect
      voltage_load_disconnect := source.voltage_load_disconnect
      voltage_absolute_max := source.voltage_absolute_max
      voltage_absolute_min := source.voltage_absolute_min
      charge_current_max := source.charge_current_max
      topping_current_cutoff := source.topping_current_cutoff
      topping_duration := source.topping_duration
      trickle_enabled := source.trickle_enabled
      trickle_voltage := source.trickle_voltage
      trickle_recharge_time := source.trickle_recharge_time
      charge_temp_max := source.charge_temp_max
      charge_temp_min := source.charge_temp_min
      discharge_temp_max := source.discharge_temp_max
      discharge_temp_min := source.discharge_temp_min
      temperature_compensation := source.temperature_compensation
      internal_resistance := source.internal_resistance
      wire_resistance := source.wire_resistance }
  if d.nominal_capacity ≠ source.nominal_capacity then
    { d with nominal_capacity := source.nominal_capacity }
  else d

/-! ## Runtime state -/

/-- Error taxonomy used by `bat_charger.cpp` (the `ERR_BAT_*` constants of
`device_status.h`). -/
inductive ErrorFlag where
  | ERR_BAT_UNDERVOLTAGE
  | ERR_BAT_OVERVOLTAGE
  | ERR_BAT_DIS_OVERTEMP
  | ERR_BAT_DIS_UNDERTEMP
  | ERR_BAT_CHG_OVERTEMP
  | ERR_BAT_CHG_UNDERTEMP
  deriving DecidableEq, Repr

/-- Modelled from the spec: the class `DeviceStatus` of `device_status.h`, a
registry of independently settable and clearable error flags with the
operations set, clear and has. -/
structure DeviceStatus where
  error_flags : ErrorFlag → Bool

/-- Modelled from the spec: `DeviceStatus::set_error` raises one flag and
leaves the others. -/
def DeviceStatus.set_error (d : DeviceStatus) (e : ErrorFlag) : DeviceStatus :=
  ⟨fun x => if x = e then true else d.error_flags x⟩

/-- Modelled from the spec: `DeviceStatus::clear_error` lowers one flag and
leaves the others. -/
def DeviceStatus.clear_error (d : DeviceStatus) (e : ErrorFlag) : DeviceStatus :=
  ⟨fun x => if x = e then false else d.error_flags x⟩

/-- Modelled from the spec: `DeviceStatus::has_error` reads one flag. -/
def DeviceStatus.has_error (d : DeviceStatus) (e : ErrorFlag) : Bool :=
  d.error_flags e

/-- A registry with no error raised. -/
def DeviceStatus.none : DeviceStatus := ⟨fun _ => false⟩

/-- The fields of `DcBus` (`dc_bus.h`) that `bat_charger.cpp` accesses. -/
structure DcBus where
  voltage : ℚ
  droop_res : ℚ
  sink_voltage_bound : ℚ
  src_voltage_bound : ℚ
  deriving DecidableEq

/-- The fields of `PowerPort` that `bat_charger.cpp` accesses; `bus` is the
bus the port points to. -/
structure PowerPort where
  bus : DcBus
  current : ℚ
  pos_current_limit : ℚ
  neg_current_limit : ℚ
  deriving DecidableEq

/-- Charger states (`CHG_STATE_*`). -/
inductive ChargerState where
  | CHG_STATE_IDLE
  | CHG_STATE_BULK
  | CHG_STATE_TOPPING
  | CHG_STATE_TRICKLE
  | CHG_STATE_EQUALIZATION
  deriving DecidableEq, Repr

/-- The members of class `Charger` that `bat_charger.cpp` accesses; `port` is
the power port the charger points to. -/
structure Charger where
  port : PowerPort
  state : ChargerState
  time_state_changed : Int
  num_batteries : Int
  bat_temperature : ℚ
  soc : Int
  discharged_Ah : ℚ
  usable_capacity : ℚ
  soh : ℚ
  num_full_charges : Int
  num_deep_discharges : Int
  time_last_equalization : Int
  deep_dis_last_equalization : Int
  target_voltage_timer : Int
  time_target_voltage_reached : Int
  full : Bool
  deriving DecidableEq

/-- Assignment to `port->pos_current_limit`. -/
def Charger.set_pos_current_limit (c : Charger) (x : ℚ) : Charger :=
  { c with port := { c.port with pos_current_limit := x } }

/-- Assignment to `port->neg_current_limit`. -/
def Charger.set_neg_current_limit (c : Charger) (x : ℚ) : Charger :=
  { c with port := { c.port with neg_current_limit := x } }

/-- Assignment to `port->bus->sink_voltage_bound`. -/
def Charger.set_sink_voltage_bound (c : Charger) (x : ℚ) : Charger :=
  { c with port := { c.port with bus := { c.port.bus with sink_voltage_bound := x } } }

/-- The function `battery_conf_overwrite` (lines 173-210).  `charger` is
`none` for a NULL pointer.  Returns the updated destination profile and the
updated charger. -/
def battery_conf_overwrite (source destination : BatConf) (charger : Option Charger) :
    BatConf × Option Charger :=
  (battery_conf_overwrite_conf source destination,
   if destination.nominal_capacity ≠ source.nominal_capacity then
     charger.map (fun c => { c with discharged_Ah := 0, usable_capacity := 0, soh := 0 })
   else charger)

/-! ## State-of-charge estimation -/

/-- The C cast `(int)x` of a floating-point value: truncation toward zero. -/
def float_to_int (x : ℚ) : Int := Int.tdiv x.num (x.den : Int)

/-- The function `Charger::update_soc` (lines 254-281).  The function-static
variable `soc_filtered` is passed in and returned next to the charger. -/
def update_soc (bat_conf : BatConf) (soc_filtered : Int) (c : Charger) : Int × Charger :=
  let r : Int × Charger :=
    if |c.port.current| < 0.2 then
      let soc_new : Int := float_to_int
        ((c.port.bus.voltage - bat_conf.ocv_empty) /
          (bat_conf.ocv_full - bat_conf.ocv_empty) * 10000.0)
      let f1 : Int :=
        if soc_new > 500 ∧ soc_filtered = 0 then soc_new
        else soc_filtered + Int.tdiv (soc_new - soc_filtered) 100
      let f2 : Int :=
        if f1 > 10000 then 10000
        else if f1 < 0 then 0
        else f1
      (f2, { c with soc := Int.tdiv f2 100 })
    else (soc_filtered, c)
  (r.1, { r.2 with discharged_Ah := r.2.discharged_Ah + -r.2.port.current / 3600.0 })

/-- One measurement sample fed to `update_soc`: bus voltage and port current. -/
structure Sample where
  voltage : ℚ
  current : ℚ

/-- Writes a measurement sample into the charger's port. -/
def Charger.with_sample (c : Charger) (m : Sample) : Charger :=
  { c with port := { c.port with current := m.current,
                                 bus := { c.port.bus with voltage := m.voltage } } }

/-- Repeated `update_soc`, one call per measurement sample, from left to
right. -/
def update_soc_seq (bat_conf : BatConf) : List Sample → Int × Charger → Int × Charger
  | [], st => st
  | m :: ms, st =>
    update_soc_seq bat_conf ms (update_soc bat_conf st.1 (st.2.with_sample m))

/-- The method `Charger::enter_state` (lines 283-288); `now` is `uptime()`. -/
def enter_state (now : Int) (c : Charger) (next_state : ChargerState) : Charger :=
  { c with time_state_changed := now, state := next_state }

/-! ## Discharge guard -/

/-- The method `Charger::discharge_control` (lines 290-343) acting on the
charger and on the global `dev_stat`. -/
def discharge_control (bat_conf : BatConf) (c : Charger) (dev_stat : DeviceStatus) :
    Charger × DeviceStatus :=
  if c.port.neg_current_limit < 0 then
    if c.port.bus.voltage < (c.num_batteries : ℚ) *
        (bat_conf.voltage_load_disconnect - c.port.current * c.port.bus.droop_res) then
      let c1 := c.set_neg_current_limit 0
      let c2 := { c1 with num_deep_discharges := c1.num_deep_discharges + 1 }
      let d1 := dev_stat.set_error .ERR_BAT_UNDERVOLTAGE
      let c3 :=
        if c2.usable_capacity = 0 then
          { c2 with usable_capacity := c2.discharged_Ah }
        else
          { c2 with usable_capacity := 0.8 * c2.usable_capacity + 0.2 * c2.discharged_Ah }
      ({ c3 with soh := c3.usable_capacity / bat_conf.nominal_capacity }, d1)
    else if c.bat_temperature > bat_conf.discharge_temp_max then
      (c.set_neg_current_limit 0, dev_stat.set_error .ERR_BAT_DIS_OVERTEMP)
    else if c.bat_temperature < bat_conf.discharge_temp_min then
      (c.set_neg_current_limit 0, dev_stat.set_error .ERR_BAT_DIS_UNDERTEMP)
    else (c, dev_stat)
  else
    if c.port.bus.voltage ≥ (c.num_batteries : ℚ) *
        (bat_conf.voltage_load_reconnect - c.port.current * c.port.bus.droop_res)
      ∧ c.bat_temperature < bat_conf.discharge_temp_max - 1
      ∧ c.bat_temperature > bat_conf.discharge_temp_min + 1 then
      (c.set_neg_current_limit (-bat_conf.discharge_current_max),
       ((dev_stat.clear_error .ERR_BAT_DIS_OVERTEMP).clear_error
          .ERR_BAT_DIS_UNDERTEMP).clear_error .ERR_BAT_UNDERVOLTAGE)
    else (c, dev_stat)

/-! ## Charging state machine -/

/-- The temperature check that opens `Charger::charge_control` (lines
347-357). -/
def charge_temp_guard (now : Int) (bat_conf : BatConf) (c : Charger)
    (dev_stat : DeviceStatus) : Charger × DeviceStatus :=
  if c.bat_temperature > bat_conf.charge_temp_max then
    (enter_state now (c.set_pos_current_limit 0) .CHG_STATE_IDLE,
     dev_stat.set_error .ERR_BAT_CHG_OVERTEMP)
  else if c.bat_temperature < bat_conf.charge_temp_min then
    (enter_state now (c.set_pos_current_limit 0) .CHG_STATE_IDLE,
     dev_stat.set_error .ERR_BAT_CHG_UNDERTEMP)
  else (c, dev_stat)

/-- The overvoltage recovery of `Charger::charge_control` (lines 359-363). -/
def overvoltage_recovery (bat_conf : BatConf) (c : Charger) (dev_stat : DeviceStatus) :
    DeviceStatus :=
  if dev_stat.has_error .ERR_BAT_OVERVOLTAGE = true ∧
      c.port.bus.voltage < (bat_conf.voltage_absolute_max - 0.5) * (c.num_batteries : ℚ) then
    dev_stat.clear_error .ERR_BAT_OVERVOLTAGE
  else dev_stat

/-- The expression `num_batteries * (v + temperature_compensation *
(bat_temperature - 25))` that the state machine writes to the sink voltage
bound. -/
def compensated_voltage (bat_conf : BatConf) (c : Charger) (v : ℚ) : ℚ :=
  (c.num_batteries : ℚ) * (v + bat_conf.temperature_compensation * (c.bat_temperature - 25))

/-- The exit of the topping phase once `full` is set (lines 421-444). -/
def topping_full_exit (now : Int) (bat_conf : BatConf) (c : Charger) : Charger :=
  let c1 := { c with num_full_charges := c.num_full_charges + 1, discharged_Ah := 0 }
  if bat_conf.equalization_enabled = true ∧
      (Int.tdiv (now - c1.time_last_equalization) (24 * 60 * 60)
          ≥ bat_conf.equalization_trigger_days ∨
       c1.num_deep_discharges - c1.deep_dis_last_equalization
          ≥ bat_conf.equalization_trigger_deep_cycles) then
    enter_state now
      ((c1.set_sink_voltage_bound
          ((c1.num_batteries : ℚ) * bat_conf.equalization_voltage)).set_pos_current_limit
        bat_conf.equalization_current_limit)
      .CHG_STATE_EQUALIZATION
  else if bat_conf.trickle_enabled = true then
    enter_state now
      (c1.set_sink_voltage_bound (compensated_voltage bat_conf c1 bat_conf.trickle_voltage))
      .CHG_STATE_TRICKLE
  else
    enter_state now (c1.set_pos_current_limit 0) .CHG_STATE_IDLE

/-- The `switch (state)` of `Charger::charge_control` (lines 366-495).
`droop_voltage` is `DcBus::droop_voltage`, `now` is `uptime()`. -/
def charge_state_machine (droop_voltage : DcBus → ℚ → ℚ) (now : Int) (bat_conf : BatConf)
    (c : Charger) (dev_stat : DeviceStatus) : Charger × DeviceStatus :=
  match c.state with
  | .CHG_STATE_IDLE =>
    if c.port.bus.voltage < bat_conf.voltage_recharge * (c.num_batteries : ℚ)
        ∧ c.port.bus.voltage > bat_conf.voltage_absolute_min * (c.num_batteries : ℚ)
        ∧ now - c.time_state_changed > bat_conf.time_limit_recharge
        ∧ c.bat_temperature < bat_conf.charge_temp_max - 1
        ∧ c.bat_temperature > bat_conf.charge_temp_min + 1 then
      let c1 := c.set_sink_voltage_bound (compensated_voltage bat_conf c bat_conf.topping_voltage)
      let c2 := c1.set_pos_current_limit bat_conf.charge_current_max
      let c3 := { c2 with full := false }
      (enter_state now c3 .CHG_STATE_BULK,
       ((dev_stat.clear_error .ERR_BAT_CHG_OVERTEMP).clear_error
          .ERR_BAT_CHG_UNDERTEMP).clear_error .ERR_BAT_OVERVOLTAGE)
    else (c, dev_stat)
  | .CHG_STATE_BULK =>
    let c1 := c.set_sink_voltage_bound (compensated_voltage bat_conf c bat_conf.topping_voltage)
    if c1.port.bus.voltage > (c1.num_batteries : ℚ) *
        droop_voltage c1.port.bus c1.port.bus.sink_voltage_bound then
      (enter_state now { c1 with target_voltage_timer := 0 } .CHG_STATE_TOPPING, dev_stat)
    else (c1, dev_stat)
  | .CHG_STATE_TOPPING =>
    let c1 := c.set_sink_voltage_bound (compensated_voltage bat_conf c bat_conf.topping_voltage)
    let c2 :=
      if c1.port.bus.voltage ≥ (c1.num_batteries : ℚ) *
          droop_voltage c1.port.bus c1.port.bus.sink_voltage_bound - 0.05 then
        let c1a :=
          if c1.port.current < bat_conf.topping_current_cutoff ∨
              c1.target_voltage_timer > bat_conf.topping_duration then
            { c1 with full := true }
          else c1
        { c1a with target_voltage_timer := c1a.target_voltage_timer + 1 }
      else if now - c1.time_state_changed > 8 * 60 * 60 then
        enter_state now c1 .CHG_STATE_BULK
      else c1
    if c2.full = true then (topping_full_exit now bat_conf c2, dev_stat)
    else (c2, dev_stat)
  | .CHG_STATE_TRICKLE =>
    let c1 := c.set_sink_voltage_bound (compensated_voltage bat_conf c bat_conf.trickle_voltage)
    let c2 :=
      if c1.port.bus.voltage ≥ (c1.num_batteries : ℚ) *
          (c1.port.bus.sink_voltage_bound - c1.port.current * c1.port.bus.droop_res) then
        { c1 with time_target_voltage_reached := now }
      else c1
    if now - c2.time_target_voltage_reached > bat_conf.trickle_recharge_time then
      let c3 := c2.set_pos_current_limit bat_conf.charge_current_max
      (enter_state now { c3 with full := false } .CHG_STATE_BULK, dev_stat)
    else (c2, dev_stat)
  | .CHG_STATE_EQUALIZATION =>
    let c1 := c.set_sink_voltage_bound
      (compensated_voltage bat_conf c bat_conf.equalization_voltage)
    if now - c1.time_state_changed > bat_conf.equalization_duration then
      let c2 := { c1 with time_last_equalization := now,
                          deep_dis_last_equalization := c1.num_deep_discharges,
                          discharged_Ah := 0 }
      if bat_conf.trickle_enabled = true then
        (enter_state now
          (c2.set_sink_voltage_bound (compensated_voltage bat_conf c2 bat_conf.trickle_voltage))
          .CHG_STATE_TRICKLE, dev_stat)
      else
        (enter_state now (c2.set_pos_current_limit 0) .CHG_STATE_IDLE, dev_stat)
    else (c1, dev_stat)

/-- The method `Charger::charge_control` (lines 345-496): temperature check,
overvoltage recovery, then the state machine. -/
def charge_control (droop_voltage : DcBus → ℚ → ℚ) (now : Int) (bat_conf : BatConf)
    (c : Charger) (dev_stat : DeviceStatus) : Charger × DeviceStatus :=
  let g := charge_temp_guard now bat_conf c dev_stat
  let d := overvoltage_recovery bat_conf g.1 g.2
  charge_state_machine droop_voltage now bat_conf g.1 d


/-! ## Profile comparison and port initialisation -/

/-- The function `battery_conf_changed` (lines 212-240): true when the two
profiles differ in one of the compared fields. -/
def battery_conf_changed (a b : BatConf) : Bool :=
  if a.topping_voltage ≠ b.topping_voltage ∨
      a.voltage_recharge ≠ b.voltage_recharge ∨
      a.voltage_load_reconnect ≠ b.voltage_load_reconnect ∨
      a.voltage_load_disconnect ≠ b.voltage_load_disconnect ∨
      a.voltage_absolute_max ≠ b.voltage_absolute_max ∨
      a.voltage_absolute_min ≠ b.voltage_absolute_min ∨
      a.charge_current_max ≠ b.charge_current_max ∨
      a.topping_current_cutoff ≠ b.topping_current_cutoff ∨
      a.topping_duration ≠ b.topping_duration ∨
      a.trickle_enabled ≠ b.trickle_enabled ∨
      a.trickle_voltage ≠ b.trickle_voltage ∨
      a.trickle_recharge_time ≠ b.trickle_recharge_time ∨
      a.charge_temp_max ≠ b.charge_temp_max ∨
      a.charge_temp_min ≠ b.charge_temp_min ∨
      a.discharge_temp_max ≠ b.discharge_temp_max ∨
      a.discharge_temp_min ≠ b.discharge_temp_min ∨
      a.temperature_compensation ≠ b.temperature_compensation ∨
      a.internal_resistance ≠ b.internal_resistance ∨
      a.wire_resistance ≠ b.wire_resistance then
    true
  else
    false

/-- The function `battery_init_terminal` (lines 498-513); `num_batteries` is
the C `unsigned int` argument. -/
def battery_init_terminal (port : PowerPort) (bat : BatConf) (num_batteries : Nat) :
    PowerPort :=
  let n : Nat := if num_batteries = 2 then 2 else 1
  let p1 : PowerPort := { port with neg_current_limit := -bat.discharge_current_max }
  let p2 : PowerPort :=
    { p1 with bus := { p1.bus with
        droop_res := -(bat.internal_resistance + -bat.wire_resistance) * (n : ℚ) } }
  let p3 : PowerPort :=
    { p2 with bus := { p2.bus with sink_voltage_bound := bat.topping_voltage * (n : ℚ) } }
  let p4 : PowerPort := { p3 with pos_current_limit := bat.charge_current_max }
  let p5 : PowerPort :=
    { p4 with bus := { p4.bus with
        src_voltage_bound := bat.voltage_load_disconnect * (n : ℚ) } }
  { p5 with bus := { p5.bus with droop_res := -bat.wire_resistance * (n : ℚ) } }

/-- The value `soc_new` that `update_soc` computes from the port measurement
(lines 259-260). -/
def soc_raw (bat_conf : BatConf) (c : Charger) : Int :=
  float_to_int
    ((c.port.bus.voltage - bat_conf.ocv_empty) /
      (bat_conf.ocv_full - bat_conf.ocv_empty) * 10000.0)

/-- The clamp that `update_soc` applies to the filtered value (lines
271-276). -/
def soc_clamp (f : Int) : Int :=
  if f > 10000 then 10000
  else if f < 0 then 0
  else f

/-- The range invariant of the state-of-charge estimator: the filtered value
lies in [0, 10000] and the visible `soc` in [0, 100]. -/
def soc_in_range (st : Int × Charger) : Prop :=
  0 ≤ st.1 ∧ st.1 ≤ 10000 ∧ 0 ≤ st.2.soc ∧ st.2.soc ≤ 100

/-! ## Runs of ticks -/

/-- One measurement taken before a tick: bus voltage, port current and
battery temperature. -/
structure Measurement where
  voltage : ℚ
  current : ℚ
  temperature : ℚ

/-- Writes a measurement into the charger's port and temperature. -/
def Charger.with_measurement (c : Charger) (m : Measurement) : Charger :=
  { c with
    port := { c.port with current := m.current,
                          bus := { c.port.bus with voltage := m.voltage } }
    bat_temperature := m.temperature }

/-- One tick of the state-of-charge estimator or of the discharge guard, each
on a fresh measurement. -/
inductive GuardTick where
  | soc (m : Measurement)
  | discharge (m : Measurement)

/-- The state threaded through a run of `update_soc` and `discharge_control`
ticks: the function-static `soc_filtered`, the charger and the global
`dev_stat`. -/
structure GuardState where
  soc_filtered : Int
  charger : Charger
  dev_stat : DeviceStatus

/-- One `update_soc` or `discharge_control` call on the measurement of the
tick. -/
def guard_step (bat_conf : BatConf) (st : GuardState) : GuardTick → GuardState
  | .soc m =>
    let r := update_soc bat_conf st.soc_filtered (st.charger.with_measurement m)
    ⟨r.1, r.2, st.dev_stat⟩
  | .discharge m =>
    let r := discharge_control bat_conf (st.charger.with_measurement m) st.dev_stat
    ⟨st.soc_filtered, r.1, r.2⟩

/-- A run of `update_soc` and `discharge_control` ticks, from left to
right. -/
def guard_run (bat_conf : BatConf) : List GuardTick → GuardState → GuardState
  | [], st => st
  | t :: ts, st => guard_run bat_conf ts (guard_step bat_conf st t)

/-- The inputs of one `charge_control` tick: the uptime, the active profile
and the measurement. -/
structure ChargeTick where
  now : Int
  bat_conf : BatConf
  m : Measurement

/-- A run of `charge_control` ticks, from left to right. -/
def charge_run (droop_voltage : DcBus → ℚ → ℚ) :
    List ChargeTick → Charger × DeviceStatus → Charger × DeviceStatus
  | [], st => st
  | t :: ts, st =>
    charge_run droop_voltage ts
      (charge_control droop_voltage t.now t.bat_conf (st.1.with_measurement t.m) st.2)

/-- The reachable-state relation between the charger state and the full
latch: not full in BULK and TOPPING, full in TRICKLE and EQUALIZATION. -/
def full_latch_consistent (c : Charger) : Prop :=
  ((c.state = .CHG_STATE_BULK ∨ c.state = .CHG_STATE_TOPPING) → c.full = false) ∧
  ((c.state = .CHG_STATE_TRICKLE ∨ c.state = .CHG_STATE_EQUALIZATION) → c.full = true)

/-! ## Concrete scenarios -/

/-- Identity droop model: a bus whose droop voltage is the zero-current
voltage itself. -/
def droop_none : DcBus → ℚ → ℚ := fun _ v => v

/-- A charger at rest: IDLE since time 0, one battery, 25 degC, nothing
measured, all counters zero. -/
def Charger.zero : Charger where
  port := { bus := { voltage := 0, droop_res := 0, sink_voltage_bound := 0,
                     src_voltage_bound := 0 },
            current := 0, pos_current_limit := 0, neg_current_limit := 0 }
  state := .CHG_STATE_IDLE
  time_state_changed := 0
  num_batteries := 1
  bat_temperature := 25
  soc := 0
  discharged_Ah := 0
  usable_capacity := 0
  soh := 0
  num_full_charges := 0
  num_deep_discharges := 0
  time_last_equalization := 0
  deep_dis_last_equalization := 0
  target_voltage_timer := 0
  time_target_voltage_reached := 0
  full := false

/-- Writes a bus voltage measurement into the charger's port. -/
def Charger.with_voltage (c : Charger) (v : ℚ) : Charger :=
  { c with port := { c.port with bus := { c.port.bus with voltage := v } } }

/-- Puts the charger into a given state at a given battery temperature. -/
def Charger.in_state_at (c : Charger) (st : ChargerState) (temperature : ℚ) : Charger :=
  { c with state := st, bat_temperature := temperature }

/-- A charger at rest whose load is connected (discharge limit -100 A) with
the given bus voltage and coulomb counter. -/
def Charger.discharging (v discharged_Ah : ℚ) : Charger :=
  { Charger.zero with
    port := { Charger.zero.port with
              neg_current_limit := -100
              bus := { Charger.zero.port.bus with voltage := v } }
    discharged_Ah := discharged_Ah }

/-- A charger in the topping phase of scenario B: 9.6 V on the bus, 3.9 A of
charge current, 25 degC, 12 Ah on the coulomb counter. -/
def Charger.topping_held : Charger :=
  { Charger.zero with
    port := { Charger.zero.port with
              current := 3.9
              pos_current_limit := 100
              bus := { Charger.zero.port.bus with voltage := 9.6 } }
    state := .CHG_STATE_TOPPING
    discharged_Ah := 12 }

/-- A charger in the equalization phase entered at time 0, with 7 Ah on the
coulomb counter. -/
def Charger.equalizing : Charger :=
  { Charger.zero with state := .CHG_STATE_EQUALIZATION, discharged_Ah := 7 }

/-- A charger in the trickle phase with the full latch set that reached the
trickle target for the last time at time 0 and now sees 8 V on the bus. -/
def Charger.trickle_drained : Charger :=
  { Charger.zero with
    port := { Charger.zero.port with
              bus := { Charger.zero.port.bus with voltage := 8 } }
    state := .CHG_STATE_TRICKLE
    full := true }

/-- A charger at rest with a disconnected load (discharge limit 0), 13 V on
the bus and the undervoltage counter at 3. -/
def Charger.load_disconnected : Charger :=
  { Charger.zero with
    port := { Charger.zero.port with
              bus := { Charger.zero.port.bus with voltage := 13 } }
    num_deep_discharges := 3 }

/-- A charger with two batteries in series in the bulk phase at 25 degC with
20 V on the bus. -/
def Charger.bulk_two_batteries : Charger :=
  { Charger.zero with
    port := { Charger.zero.port with
              bus := { Charger.zero.port.bus with voltage := 20 } }
    state := .CHG_STATE_BULK
    num_batteries := 2 }

/-- A charger with two batteries in series in the topping phase entered at
time 0, at 25 degC, with 19.2 V on the bus and 3.9 A of charge current. -/
def Charger.topping_two_batteries : Charger :=
  { Charger.zero with
    port := { Charger.zero.port with
              current := 3.9
              pos_current_limit := 100
              bus := { Charger.zero.port.bus with voltage := 19.2 } }
    state := .CHG_STATE_TOPPING
    num_batteries := 2 }

/-- A charger whose load is connected (discharge limit -100 A) at 55 degC
with the given bus voltage. -/
def Charger.discharging_hot (v : ℚ) : Charger :=
  { Charger.discharging v 0 with bat_temperature := 55 }

/-- A profile whose open-circuit references are 0 V (empty) and 20 V
(full). -/
def ocv_0_20_conf : BatConf :=
  { BatConf.zero with ocv_full := 20 }

/-- The 6-cell 100 Ah AGM profile with the topping current cutoff lowered to
0.5 A. -/
def low_cutoff_conf : BatConf :=
  { battery_conf_init BatConf.zero .BAT_TYPE_AGM 6 100 with topping_current_cutoff := 0.5 }

/-- The 4-cell 100 Ah flooded lead-acid profile of scenario A. -/
def lead_acid_4s_100Ah : BatConf :=
  battery_conf_init BatConf.zero .BAT_TYPE_FLOODED 4 100

/-- The 4-cell 100 Ah LFP profile of scenario C. -/
def lfp_4s_100Ah : BatConf :=
  battery_conf_init BatConf.zero .BAT_TYPE_LFP 4 100

/-- A profile whose charge temperature window is inverted (maximum 0 degC
below minimum 10 degC). -/
def inverted_temp_conf : BatConf :=
  { BatConf.zero with charge_temp_max := 0, charge_temp_min := 10 }

/-- A zero-initialised profile whose wire resistance was set to 0.01 Ohm
before the derivation. -/
def prior_with_wire : BatConf :=
  { BatConf.zero with wire_resistance := 0.01 }

/-- A zero-initialised profile whose trickle voltage was set to 13 V before
the derivation. -/
def prior_with_trickle : BatConf :=
  { BatConf.zero with trickle_voltage := 13 }

/-- A zero-initialised profile whose topping voltage was set to 14 V before
the derivation. -/
def prior_with_topping : BatConf :=
  { BatConf.zero with topping_voltage := 14 }

/-- The startup state of the estimator and the discharge guard: filtered
value 0, a charger with all counters zero and the load connected, no error
raised. -/
def GuardState.startup : GuardState :=
  ⟨0, Charger.discharging 13 0, DeviceStatus.none⟩

/-- Two estimator ticks while the battery is charged with 20 A, then a
discharge guard tick at 11.8 V under 1 A of load, all at 25 degC. -/
def charged_then_drained : List GuardTick :=
  [.soc ⟨13, 20, 25⟩, .soc ⟨13, 20, 25⟩, .discharge ⟨11.8, -1, 25⟩]

/-- The relation between the state of health and the counters that every run
of the estimator and the discharge guard maintains: the deep-discharge counter
has not fallen below `n0`, the state of health is 0 while the counter is still
`n0`, and the state of health is the usable capacity over the nominal
capacity. -/
def soh_consistent (bat_conf : BatConf) (n0 : Int) (st : GuardState) : Prop :=
  n0 ≤ st.charger.num_deep_discharges ∧
  (st.charger.num_deep_discharges = n0 → st.charger.soh = 0) ∧
  st.charger.soh = st.charger.usable_capacity / bat_conf.nominal_capacity

/-- Two `charge_control` ticks with the 4-cell 100 Ah flooded lead-acid
profile at 25 degC: at uptime 10000 the topping voltage is held at 9.6 V with
3.9 A, at uptime 10001 the bus has dropped to 8 V. -/
def trickle_entry_ticks : List ChargeTick :=
  [⟨10000, lead_acid_4s_100Ah, ⟨9.6, 3.9, 25⟩⟩, ⟨10001, lead_acid_4s_100Ah, ⟨8, 0, 25⟩⟩]

/-- A charger at rest with the given bus voltage and zero current, as a
sample for the estimator. -/
def Charger.resting_at (v : ℚ) : Charger :=
  Charger.zero.with_voltage v

/-! ## Theorems -/

/-- C1 (counterexample): the 1-cell 100 Ah flooded profile and the 4-cell
100 Ah LFP profile derived by `battery_conf_init` from a zero-initialised
profile are both rejected by `battery_conf_check`. -/
theorem battery_conf_init_rejected_by_check :
    battery_conf_check (battery_conf_init BatConf.zero .BAT_TYPE_FLOODED 1 100) = false ∧
    battery_conf_check (battery_conf_init BatConf.zero .BAT_TYPE_LFP 4 100) = false := by
  constructor <;>
  · simp [battery_conf_check, battery_conf_init, battery_conf_init_common, BatConf.zero,
      LOAD_CURRENT_MAX]
    norm_num

/-- C1 (amended): for the lead-acid chemistries (flooded, AGM, gel), every
cell count of at least 5 and every nominal capacity above 0.25 Ah, the profile
that `battery_conf_init` derives from a zero-initialised profile is accepted
by `battery_conf_check`. -/
theorem battery_conf_init_lead_acid_passes_check (type : BatType) (num_cells : Int)
    (nominal_capacity : ℚ) (htype : is_lead_acid type = true) (hcells : 5 ≤ num_cells)
    (hcap : 1 / 4 < nominal_capacity) :
    battery_conf_check (battery_conf_init BatConf.zero type num_cells nominal_capacity)
      = true := by
  have hn : (5 : ℚ) ≤ (num_cells : ℚ) := by exact_mod_cast hcells
  cases type <;> simp [is_lead_acid] at htype <;>
  · simp [battery_conf_check, battery_conf_init, battery_conf_init_common, BatConf.zero,
      LOAD_CURRENT_MAX]
    norm_num
    repeat' apply And.intro
    all_goals linarith

/-- Witness of C1 (amended): the 6-cell 100 Ah AGM profile. -/
theorem battery_conf_init_lead_acid_passes_check_witness :
    is_lead_acid .BAT_TYPE_AGM = true ∧ (5 : Int) ≤ 6 ∧ (1 / 4 : ℚ) < 100 ∧
    battery_conf_check (battery_conf_init BatConf.zero .BAT_TYPE_AGM 6 100) = true :=
  ⟨rfl, by decide, by norm_num,
   battery_conf_init_lead_acid_passes_check .BAT_TYPE_AGM 6 100 rfl (by decide) (by norm_num)⟩


/-- C2 (counterexample): with the inverted window (maximum 0 degC, minimum
10 degC) and a battery at 5 degC, which is below `charge_temp_min`, a
`charge_control` tick from BULK with no error raised leaves
`ERR_BAT_CHG_UNDERTEMP` unset. -/
theorem charge_control_undertemp_not_raised :
    (Charger.zero.in_state_at .CHG_STATE_BULK 5).bat_temperature
      < inverted_temp_conf.charge_temp_min ∧
    (charge_control droop_none 100 inverted_temp_conf
      (Charger.zero.in_state_at .CHG_STATE_BULK 5)
      DeviceStatus.none).2.has_error .ERR_BAT_CHG_UNDERTEMP = false := by
  constructor
  · norm_num [Charger.in_state_at, inverted_temp_conf, BatConf.zero]
  · simp [Charger.in_state_at, charge_control, charge_temp_guard, overvoltage_recovery, charge_state_machine,
      enter_state, Charger.set_pos_current_limit, inverted_temp_conf, BatConf.zero,
      Charger.zero, DeviceStatus.none, DeviceStatus.set_error, DeviceStatus.has_error,
      DeviceStatus.clear_error]

/-- C2 (amended): if the battery temperature is above `charge_temp_max` or
below `charge_temp_min` when `charge_control` runs, then after the call the
state is IDLE and `pos_current_limit` is 0, whatever the previous state, the
profile and the bus voltage are; `ERR_BAT_CHG_OVERTEMP` is set when the
temperature is above the maximum, and `ERR_BAT_CHG_UNDERTEMP` is set when the
temperature is below the minimum and not above the maximum. -/
theorem charge_control_temp_fault (droop_voltage : DcBus → ℚ → ℚ) (now : Int)
    (bat_conf : BatConf) (c : Charger) (dev_stat : DeviceStatus)
    (h : c.bat_temperature > bat_conf.charge_temp_max ∨
         c.bat_temperature < bat_conf.charge_temp_min) :
    (charge_control droop_voltage now bat_conf c dev_stat).1.state = .CHG_STATE_IDLE ∧
    (charge_control droop_voltage now bat_conf c dev_stat).1.port.pos_current_limit = 0 ∧
    (c.bat_temperature > bat_conf.charge_temp_max →
      (charge_control droop_voltage now bat_conf c dev_stat).2.has_error
        .ERR_BAT_CHG_OVERTEMP = true) ∧
    (c.bat_temperature < bat_conf.charge_temp_min →
      ¬ c.bat_temperature > bat_conf.charge_temp_max →
      (charge_control droop_voltage now bat_conf c dev_stat).2.has_error
        .ERR_BAT_CHG_UNDERTEMP = true) := by
  by_cases hmax : c.bat_temperature > bat_conf.charge_temp_max
  · have h1 : ¬ c.bat_temperature < bat_conf.charge_temp_max - 1 := by
      intro h2; linarith
    simp [charge_control, charge_temp_guard, overvoltage_recovery, charge_state_machine,
      enter_state, Charger.set_pos_current_limit, hmax, h1, DeviceStatus.set_error,
      DeviceStatus.has_error, DeviceStatus.clear_error]
    split <;> simp
  · have hmin : c.bat_temperature < bat_conf.charge_temp_min := by
      rcases h with h | h
      · exact absurd h hmax
      · exact h
    have h1 : ¬ c.bat_temperature > bat_conf.charge_temp_min + 1 := by
      intro h2; linarith
    simp [charge_control, charge_temp_guard, overvoltage_recovery, charge_state_machine,
      enter_state, Charger.set_pos_current_limit, hmax, hmin, h1, DeviceStatus.set_error,
      DeviceStatus.has_error, DeviceStatus.clear_error]
    split <;> simp

/-- Witness of C2 (amended), scenario D: the 4-cell 100 Ah lead-acid profile
in BULK at 55 degC ends the tick in IDLE with a zero charge current limit and
`ERR_BAT_CHG_OVERTEMP` raised. -/
theorem charge_control_temp_fault_witness :
    (Charger.zero.in_state_at .CHG_STATE_BULK 55).bat_temperature
        > lead_acid_4s_100Ah.charge_temp_max ∧
    (charge_control droop_none 100 lead_acid_4s_100Ah
      (Charger.zero.in_state_at .CHG_STATE_BULK 55) DeviceStatus.none).1.state
        = .CHG_STATE_IDLE ∧
    (charge_control droop_none 100 lead_acid_4s_100Ah
      (Charger.zero.in_state_at .CHG_STATE_BULK 55) DeviceStatus.none).1.port.pos_current_limit
        = 0 ∧
    (charge_control droop_none 100 lead_acid_4s_100Ah
      (Charger.zero.in_state_at .CHG_STATE_BULK 55) DeviceStatus.none).2.has_error
        .ERR_BAT_CHG_OVERTEMP = true :=
  have hot : (Charger.zero.in_state_at .CHG_STATE_BULK 55).bat_temperature
      > lead_acid_4s_100Ah.charge_temp_max := by
    norm_num [Charger.in_state_at, lead_acid_4s_100Ah, battery_conf_init,
      battery_conf_init_common]
  have key := charge_control_temp_fault droop_none 100 lead_acid_4s_100Ah
    (Charger.zero.in_state_at .CHG_STATE_BULK 55) DeviceStatus.none (Or.inl hot)
  ⟨hot, key.1, key.2.1, key.2.2.1 hot⟩

/-- C3: a `charge_control` tick that starts in IDLE with the bus voltage
strictly between `num_batteries * voltage_absolute_min` and `num_batteries *
voltage_recharge`, more than `time_limit_recharge` seconds after the last
state change and with the temperature strictly between `charge_temp_min + 1`
and `charge_temp_max - 1` ends in BULK with `pos_current_limit =
charge_current_max`, `sink_voltage_bound = num_batteries * (topping_voltage +
temperature_compensation * (temperature - 25))`, the full latch false and
`ERR_BAT_CHG_OVERTEMP`, `ERR_BAT_CHG_UNDERTEMP` and `ERR_BAT_OVERVOLTAGE`
cleared. -/
theorem charge_control_idle_to_bulk (droop_voltage : DcBus → ℚ → ℚ) (now : Int)
    (bat_conf : BatConf) (c : Charger) (dev_stat : DeviceStatus)
    (hstate : c.state = .CHG_STATE_IDLE)
    (hlow : (c.num_batteries : ℚ) * bat_conf.voltage_absolute_min < c.port.bus.voltage)
    (hhigh : c.port.bus.voltage < (c.num_batteries : ℚ) * bat_conf.voltage_recharge)
    (htime : now - c.time_state_changed > bat_conf.time_limit_recharge)
    (htmin : bat_conf.charge_temp_min + 1 < c.bat_temperature)
    (htmax : c.bat_temperature < bat_conf.charge_temp_max - 1) :
    (charge_control droop_voltage now bat_conf c dev_stat).1.state = .CHG_STATE_BULK ∧
    (charge_control droop_voltage now bat_conf c dev_stat).1.port.pos_current_limit
      = bat_conf.charge_current_max ∧
    (charge_control droop_voltage now bat_conf c dev_stat).1.port.bus.sink_voltage_bound
      = (c.num_batteries : ℚ) * (bat_conf.topping_voltage +
          bat_conf.temperature_compensation * (c.bat_temperature - 25)) ∧
    (charge_control droop_voltage now bat_conf c dev_stat).1.full = false ∧
    (charge_control droop_voltage now bat_conf c dev_stat).2.has_error
      .ERR_BAT_CHG_OVERTEMP = false ∧
    (charge_control droop_voltage now bat_conf c dev_stat).2.has_error
      .ERR_BAT_CHG_UNDERTEMP = false ∧
    (charge_control droop_voltage now bat_conf c dev_stat).2.has_error
      .ERR_BAT_OVERVOLTAGE = false := by
  have g1 : ¬ c.bat_temperature > bat_conf.charge_temp_max := by
    intro h; linarith
  have g2 : ¬ c.bat_temperature < bat_conf.charge_temp_min := by
    intro h; linarith
  have hhigh2 : c.port.bus.voltage < bat_conf.voltage_recharge * (c.num_batteries : ℚ) := by
    rw [mul_comm]; exact hhigh
  have hlow2 : c.port.bus.voltage > bat_conf.voltage_absolute_min * (c.num_batteries : ℚ) := by
    rw [mul_comm]; exact hlow
  have hcond : c.port.bus.voltage < bat_conf.voltage_recharge * (c.num_batteries : ℚ)
      ∧ c.port.bus.voltage > bat_conf.voltage_absolute_min * (c.num_batteries : ℚ)
      ∧ now - c.time_state_changed > bat_conf.time_limit_recharge
      ∧ c.bat_temperature < bat_conf.charge_temp_max - 1
      ∧ c.bat_temperature > bat_conf.charge_temp_min + 1 :=
    ⟨hhigh2, hlow2, htime, htmax, htmin⟩
  simp only [charge_control, charge_temp_guard, if_neg g1, if_neg g2, charge_state_machine,
    hstate, if_pos hcond]
  simp [enter_state, Charger.set_pos_current_limit, Charger.set_sink_voltage_bound,
    compensated_voltage, DeviceStatus.has_error, DeviceStatus.clear_error]

/-- Witness of C3, scenario A: the 4-cell 100 Ah lead-acid profile, idle
since time 0, at time 61 with 9 V on the bus at 25 degC, enters BULK with a
current limit of 100 A and a sink voltage bound of 9.6 V. -/
theorem charge_control_idle_to_bulk_witness :
    (charge_control droop_none 61 lead_acid_4s_100Ah (Charger.zero.with_voltage 9)
      DeviceStatus.none).1.state = .CHG_STATE_BULK ∧
    (charge_control droop_none 61 lead_acid_4s_100Ah (Charger.zero.with_voltage 9)
      DeviceStatus.none).1.port.pos_current_limit = 100 ∧
    (charge_control droop_none 61 lead_acid_4s_100Ah (Charger.zero.with_voltage 9)
      DeviceStatus.none).1.port.bus.sink_voltage_bound = 9.6 := by
  have key := charge_control_idle_to_bulk droop_none 61 lead_acid_4s_100Ah
    (Charger.zero.with_voltage 9) DeviceStatus.none rfl
    (by norm_num [Charger.with_voltage, Charger.zero, lead_acid_4s_100Ah, battery_conf_init,
      battery_conf_init_common])
    (by norm_num [Charger.with_voltage, Charger.zero, lead_acid_4s_100Ah, battery_conf_init,
      battery_conf_init_common])
    (by simp [Charger.with_voltage, Charger.zero, lead_acid_4s_100Ah, battery_conf_init,
      battery_conf_init_common])
    (by norm_num [Charger.with_voltage, Charger.zero, lead_acid_4s_100Ah, battery_conf_init,
      battery_conf_init_common])
    (by norm_num [Charger.with_voltage, Charger.zero, lead_acid_4s_100Ah, battery_conf_init,
      battery_conf_init_common])
  refine ⟨key.1, ?_, ?_⟩
  · rw [key.2.1]
    simp [lead_acid_4s_100Ah, battery_conf_init, battery_conf_init_common]
  · rw [key.2.2.1]
    norm_num [Charger.with_voltage, Charger.zero, lead_acid_4s_100Ah, battery_conf_init,
      battery_conf_init_common]


/-- C4: a `discharge_control` tick with discharge permitted
(`neg_current_limit < 0`) and the bus voltage below `num_batteries *
(voltage_load_disconnect - current * droop_res)` sets `neg_current_limit` to
0, increases `num_deep_discharges` by exactly 1, raises
`ERR_BAT_UNDERVOLTAGE`, sets `usable_capacity` to `discharged_Ah` when it was
still 0 and to `0.8 * usable_capacity + 0.2 * discharged_Ah` otherwise, and
sets `soh` to the new `usable_capacity` divided by `nominal_capacity`. -/
theorem discharge_control_low_voltage_disconnect (bat_conf : BatConf) (c : Charger)
    (dev_stat : DeviceStatus)
    (hperm : c.port.neg_current_limit < 0)
    (hlow : c.port.bus.voltage < (c.num_batteries : ℚ) *
      (bat_conf.voltage_load_disconnect - c.port.current * c.port.bus.droop_res)) :
    (discharge_control bat_conf c dev_stat).1.port.neg_current_limit = 0 ∧
    (discharge_control bat_conf c dev_stat).1.num_deep_discharges
      = c.num_deep_discharges + 1 ∧
    (discharge_control bat_conf c dev_stat).2.has_error .ERR_BAT_UNDERVOLTAGE = true ∧
    (c.usable_capacity = 0 →
      (discharge_control bat_conf c dev_stat).1.usable_capacity = c.discharged_Ah) ∧
    (c.usable_capacity ≠ 0 →
      (discharge_control bat_conf c dev_stat).1.usable_capacity
        = 0.8 * c.usable_capacity + 0.2 * c.discharged_Ah) ∧
    (discharge_control bat_conf c dev_stat).1.soh
      = (discharge_control bat_conf c dev_stat).1.usable_capacity
          / bat_conf.nominal_capacity := by
  simp only [discharge_control, if_pos hperm, if_pos hlow]
  by_cases hu : c.usable_capacity = 0 <;>
    simp [hu, Charger.set_neg_current_limit, DeviceStatus.has_error, DeviceStatus.set_error]

/-- Witness of C4, scenario C: the 4-cell 100 Ah LFP profile (disconnect
threshold 12 V), discharge permitted with limit -100 A, 11.8 V on the bus
and 40 Ah discharged so far: the limit becomes 0, the deep-discharge counter
becomes 1 and the usable capacity is seeded with 40 Ah. -/
theorem discharge_control_low_voltage_disconnect_witness :
    (discharge_control lfp_4s_100Ah (Charger.discharging 11.8 40)
      DeviceStatus.none).1.port.neg_current_limit = 0 ∧
    (discharge_control lfp_4s_100Ah (Charger.discharging 11.8 40)
      DeviceStatus.none).1.num_deep_discharges = 1 ∧
    (discharge_control lfp_4s_100Ah (Charger.discharging 11.8 40)
      DeviceStatus.none).2.has_error .ERR_BAT_UNDERVOLTAGE = true ∧
    (discharge_control lfp_4s_100Ah (Charger.discharging 11.8 40)
      DeviceStatus.none).1.usable_capacity = 40 := by
  have key := discharge_control_low_voltage_disconnect lfp_4s_100Ah
    (Charger.discharging 11.8 40) DeviceStatus.none
    (by norm_num [Charger.discharging, Charger.zero])
    (by norm_num [Charger.discharging, Charger.zero, lfp_4s_100Ah, battery_conf_init,
      battery_conf_init_common])
  refine ⟨key.1, ?_, key.2.2.1, ?_⟩
  · rw [key.2.1]; simp [Charger.discharging, Charger.zero]
  · rw [key.2.2.2.1 (by simp [Charger.discharging, Charger.zero])]
    simp [Charger.discharging, Charger.zero]


/-- What the TOPPING case of `charge_control` does when its own hold test
passes: a tick that starts in TOPPING without a charge temperature fault, with
the bus voltage at or above `num_batteries * droop_voltage(S) - 0.05` (`S` the
compensated topping voltage just written to the sink bound, itself scaled by
`num_batteries`) and with either the current below `topping_current_cutoff`
or the topping timer above `topping_duration`, increases `num_full_charges`
by exactly 1 and goes to EQUALIZATION (sink bound
`num_batteries * equalization_voltage`, current limit
`equalization_current_limit`) when equalization is enabled and due by days or
by deep-discharge cycles, otherwise to TRICKLE (sink bound the
temperature-compensated trickle voltage) when trickle is enabled, otherwise to
IDLE with `pos_current_limit = 0`. -/
theorem charge_control_topping_full (droop_voltage : DcBus → ℚ → ℚ) (now : Int)
    (bat_conf : BatConf) (c : Charger) (dev_stat : DeviceStatus)
    (hstate : c.state = .CHG_STATE_TOPPING)
    (hmax : ¬ c.bat_temperature > bat_conf.charge_temp_max)
    (hmin : ¬ c.bat_temperature < bat_conf.charge_temp_min)
    (hheld : c.port.bus.voltage ≥ (c.num_batteries : ℚ) *
      droop_voltage
        (c.set_sink_voltage_bound
          (compensated_voltage bat_conf c bat_conf.topping_voltage)).port.bus
        (compensated_voltage bat_conf c bat_conf.topping_voltage) - 0.05)
    (hfull : c.port.current < bat_conf.topping_current_cutoff ∨
      c.target_voltage_timer > bat_conf.topping_duration) :
    (charge_control droop_voltage now bat_conf c dev_stat).1.num_full_charges
      = c.num_full_charges + 1 ∧
    ((bat_conf.equalization_enabled = true ∧
        (Int.tdiv (now - c.time_last_equalization) (24 * 60 * 60)
            ≥ bat_conf.equalization_trigger_days ∨
         c.num_deep_discharges - c.deep_dis_last_equalization
            ≥ bat_conf.equalization_trigger_deep_cycles)) →
      (charge_control droop_voltage now bat_conf c dev_stat).1.state
        = .CHG_STATE_EQUALIZATION ∧
      (charge_control droop_voltage now bat_conf c dev_stat).1.port.bus.sink_voltage_bound
        = (c.num_batteries : ℚ) * bat_conf.equalization_voltage ∧
      (charge_control droop_voltage now bat_conf c dev_stat).1.port.pos_current_limit
        = bat_conf.equalization_current_limit) ∧
    (¬ (bat_conf.equalization_enabled = true ∧
        (Int.tdiv (now - c.time_last_equalization) (24 * 60 * 60)
            ≥ bat_conf.equalization_trigger_days ∨
         c.num_deep_discharges - c.deep_dis_last_equalization
            ≥ bat_conf.equalization_trigger_deep_cycles)) →
      bat_conf.trickle_enabled = true →
      (charge_control droop_voltage now bat_conf c dev_stat).1.state = .CHG_STATE_TRICKLE ∧
      (charge_control droop_voltage now bat_conf c dev_stat).1.port.bus.sink_voltage_bound
        = (c.num_batteries : ℚ) * (bat_conf.trickle_voltage +
            bat_conf.temperature_compensation * (c.bat_temperature - 25))) ∧
    (¬ (bat_conf.equalization_enabled = true ∧
        (Int.tdiv (now - c.time_last_equalization) (24 * 60 * 60)
            ≥ bat_conf.equalization_trigger_days ∨
         c.num_deep_discharges - c.deep_dis_last_equalization
            ≥ bat_conf.equalization_trigger_deep_cycles)) →
      bat_conf.trickle_enabled = false →
      (charge_control droop_voltage now bat_conf c dev_stat).1.state = .CHG_STATE_IDLE ∧
      (charge_control droop_voltage now bat_conf c dev_stat).1.port.pos_current_limit
        = 0) := by
  have hheld2 : (c.set_sink_voltage_bound
        (compensated_voltage bat_conf c bat_conf.topping_voltage)).port.bus.voltage ≥
      ((c.set_sink_voltage_bound
        (compensated_voltage bat_conf c bat_conf.topping_voltage)).num_batteries : ℚ) *
      droop_voltage
        (c.set_sink_voltage_bound
          (compensated_voltage bat_conf c bat_conf.topping_voltage)).port.bus
        (c.set_sink_voltage_bound
          (compensated_voltage bat_conf c bat_conf.topping_voltage)).port.bus.sink_voltage_bound
        - 0.05 := hheld
  have hfull2 : (c.set_sink_voltage_bound
        (compensated_voltage bat_conf c bat_conf.topping_voltage)).port.current
        < bat_conf.topping_current_cutoff ∨
      (c.set_sink_voltage_bound
        (compensated_voltage bat_conf c bat_conf.topping_voltage)).target_voltage_timer
        > bat_conf.topping_duration := hfull
  simp only [charge_control, charge_temp_guard, if_neg hmax, if_neg hmin, charge_state_machine,
    hstate, if_pos hheld2, if_pos hfull2, if_true]
  refine ⟨?_, ?_, ?_, ?_⟩
  · simp only [topping_full_exit]
    split_ifs <;> simp [enter_state, Charger.set_pos_current_limit,
      Charger.set_sink_voltage_bound]
  · intro heq
    have heq2 : bat_conf.equalization_enabled = true ∧
        (Int.tdiv (now - c.time_last_equalization) (24 * 60 * 60)
            ≥ bat_conf.equalization_trigger_days ∨
         c.num_deep_discharges - c.deep_dis_last_equalization
            ≥ bat_conf.equalization_trigger_deep_cycles) := heq
    simp only [topping_full_exit, Charger.set_sink_voltage_bound]
    rw [if_pos heq2]
    simp [enter_state, Charger.set_pos_current_limit, Charger.set_sink_voltage_bound]
  · intro heq htr
    simp only [topping_full_exit, Charger.set_sink_voltage_bound]
    rw [if_neg heq, if_pos htr]
    simp [enter_state, Charger.set_sink_voltage_bound, compensated_voltage]
  · intro heq htr
    have htr2 : ¬ bat_conf.trickle_enabled = true := by simp [htr]
    simp only [topping_full_exit, Charger.set_sink_voltage_bound]
    rw [if_neg heq, if_neg htr2]
    simp [enter_state, Charger.set_pos_current_limit]

/-- Scenario B with one battery: the 4-cell 100 Ah flooded lead-acid profile
(equalization disabled, trickle enabled) in TOPPING at 9.6 V with 3.9 A counts
one full charge and enters TRICKLE with a sink bound of 9.4 V. -/
theorem charge_control_topping_full_scenario_b :
    (charge_control droop_none 100 lead_acid_4s_100Ah Charger.topping_held
      DeviceStatus.none).1.num_full_charges = 1 ∧
    (charge_control droop_none 100 lead_acid_4s_100Ah Charger.topping_held
      DeviceStatus.none).1.state = .CHG_STATE_TRICKLE ∧
    (charge_control droop_none 100 lead_acid_4s_100Ah Charger.topping_held
      DeviceStatus.none).1.port.bus.sink_voltage_bound = 9.4 := by
  have key := charge_control_topping_full droop_none 100 lead_acid_4s_100Ah
    Charger.topping_held DeviceStatus.none rfl
    (by norm_num [Charger.topping_held, Charger.zero, lead_acid_4s_100Ah, battery_conf_init,
      battery_conf_init_common])
    (by norm_num [Charger.topping_held, Charger.zero, lead_acid_4s_100Ah, battery_conf_init,
      battery_conf_init_common])
    (by norm_num [Charger.topping_held, Charger.zero, lead_acid_4s_100Ah, battery_conf_init,
      battery_conf_init_common, droop_none, compensated_voltage])
    (Or.inl (by norm_num [Charger.topping_held, Charger.zero, lead_acid_4s_100Ah,
      battery_conf_init, battery_conf_init_common]))
  have hne : ¬ (lead_acid_4s_100Ah.equalization_enabled = true ∧
      (Int.tdiv (100 - Charger.topping_held.time_last_equalization) (24 * 60 * 60)
          ≥ lead_acid_4s_100Ah.equalization_trigger_days ∨
       Charger.topping_held.num_deep_discharges
          - Charger.topping_held.deep_dis_last_equalization
          ≥ lead_acid_4s_100Ah.equalization_trigger_deep_cycles)) := by
    simp [lead_acid_4s_100Ah, battery_conf_init, battery_conf_init_common]
  have htr : lead_acid_4s_100Ah.trickle_enabled = true := by
    simp [lead_acid_4s_100Ah, battery_conf_init, battery_conf_init_common]
  refine ⟨?_, (key.2.2.1 hne htr).1, ?_⟩
  · rw [key.1]; simp [Charger.topping_held, Charger.zero]
  · rw [(key.2.2.1 hne htr).2]
    norm_num [Charger.topping_held, Charger.zero, lead_acid_4s_100Ah, battery_conf_init,
      battery_conf_init_common]

/-- C5 (failing input): two batteries in series, the 4-cell 100 Ah flooded
lead-acid profile (cutoff 4 A), TOPPING at 25 degC with 19.2 V on the bus and
3.9 A, on a droop-free bus.  The sink voltage bound just computed is `S =
19.2 V`, the bus voltage is at or above `droop_voltage(S) - 0.05 V` and the
current is below the cutoff, yet the tick counts no full charge and stays in
TOPPING, because the code tests against `num_batteries * droop_voltage(S) -
0.05 = 38.35 V`. -/
theorem charge_control_topping_two_batteries_not_full :
    (charge_control droop_none 100 lead_acid_4s_100Ah Charger.topping_two_batteries
      DeviceStatus.none).1.port.bus.sink_voltage_bound = 19.2 ∧
    Charger.topping_two_batteries.port.bus.voltage ≥
      droop_none
        (charge_control droop_none 100 lead_acid_4s_100Ah Charger.topping_two_batteries
          DeviceStatus.none).1.port.bus
        19.2 - 0.05 ∧
    Charger.topping_two_batteries.port.current < lead_acid_4s_100Ah.topping_current_cutoff ∧
    ¬ Charger.topping_two_batteries.bat_temperature > lead_acid_4s_100Ah.charge_temp_max ∧
    ¬ Charger.topping_two_batteries.bat_temperature < lead_acid_4s_100Ah.charge_temp_min ∧
    Charger.topping_two_batteries.num_full_charges = 0 ∧
    (charge_control droop_none 100 lead_acid_4s_100Ah Charger.topping_two_batteries
      DeviceStatus.none).1.num_full_charges = 0 ∧
    (charge_control droop_none 100 lead_acid_4s_100Ah Charger.topping_two_batteries
      DeviceStatus.none).1.state = .CHG_STATE_TOPPING ∧
    (charge_control droop_none 100 lead_acid_4s_100Ah Charger.topping_two_batteries
      DeviceStatus.none).1.full = false := by
  refine ⟨?_, ?_, ?_, ?_, ?_, rfl, ?_, ?_, ?_⟩
  · simp [charge_control, charge_temp_guard, charge_state_machine, topping_full_exit,
      enter_state, Charger.set_sink_voltage_bound, Charger.set_pos_current_limit,
      compensated_voltage, droop_none, Charger.topping_two_batteries, Charger.zero,
      lead_acid_4s_100Ah, battery_conf_init, battery_conf_init_common]
    norm_num
  · norm_num [droop_none, Charger.topping_two_batteries, Charger.zero]
  · norm_num [Charger.topping_two_batteries, Charger.zero, lead_acid_4s_100Ah,
      battery_conf_init, battery_conf_init_common]
  · norm_num [Charger.topping_two_batteries, Charger.zero, lead_acid_4s_100Ah,
      battery_conf_init, battery_conf_init_common]
  · norm_num [Charger.topping_two_batteries, Charger.zero, lead_acid_4s_100Ah,
      battery_conf_init, battery_conf_init_common]
  · simp [charge_control, charge_temp_guard, charge_state_machine, topping_full_exit,
      enter_state, Charger.set_sink_voltage_bound, Charger.set_pos_current_limit,
      compensated_voltage, droop_none, Charger.topping_two_batteries, Charger.zero,
      lead_acid_4s_100Ah, battery_conf_init, battery_conf_init_common]
    norm_num
  · simp [charge_control, charge_temp_guard, charge_state_machine, topping_full_exit,
      enter_state, Charger.set_sink_voltage_bound, Charger.set_pos_current_limit,
      compensated_voltage, droop_none, Charger.topping_two_batteries, Charger.zero,
      lead_acid_4s_100Ah, battery_conf_init, battery_conf_init_common]
    norm_num
  · simp [charge_control, charge_temp_guard, charge_state_machine, topping_full_exit,
      enter_state, Charger.set_sink_voltage_bound, Charger.set_pos_current_limit,
      compensated_voltage, droop_none, Charger.topping_two_batteries, Charger.zero,
      lead_acid_4s_100Ah, battery_conf_init, battery_conf_init_common]
    norm_num

/-- C6: `discharged_Ah` is exactly 0 after a `charge_control` tick that starts
in TOPPING without a charge temperature fault and has the full latch set when
the latch is tested (it was set before, or the topping voltage is held and the
current is below the cutoff or the timer above the duration), and after a
tick that starts in EQUALIZATION without a charge temperature fault more than
`equalization_duration` seconds after the state was entered; in both cases
whatever value `discharged_Ah` had before. -/
theorem charge_control_resets_coulomb_counter (droop_voltage : DcBus → ℚ → ℚ) (now : Int)
    (bat_conf : BatConf) (c : Charger) (dev_stat : DeviceStatus)
    (hmax : ¬ c.bat_temperature > bat_conf.charge_temp_max)
    (hmin : ¬ c.bat_temperature < bat_conf.charge_temp_min) :
    (c.state = .CHG_STATE_TOPPING →
      (c.full = true ∨
        (c.port.bus.voltage ≥ (c.num_batteries : ℚ) *
            droop_voltage
              (c.set_sink_voltage_bound
                (compensated_voltage bat_conf c bat_conf.topping_voltage)).port.bus
              (compensated_voltage bat_conf c bat_conf.topping_voltage) - 0.05 ∧
          (c.port.current < bat_conf.topping_current_cutoff ∨
            c.target_voltage_timer > bat_conf.topping_duration))) →
      (charge_control droop_voltage now bat_conf c dev_stat).1.discharged_Ah = 0 ∧
      (charge_control droop_voltage now bat_conf c dev_stat).1.state
        ≠ .CHG_STATE_TOPPING) ∧
    (c.state = .CHG_STATE_EQUALIZATION →
      now - c.time_state_changed > bat_conf.equalization_duration →
      (charge_control droop_voltage now bat_conf c dev_stat).1.discharged_Ah = 0 ∧
      (charge_control droop_voltage now bat_conf c dev_stat).1.state
        ≠ .CHG_STATE_EQUALIZATION) := by
  constructor
  · intro hstate hfull
    simp only [charge_control, charge_temp_guard, if_neg hmax, if_neg hmin,
      charge_state_machine, hstate]
    have hc2 : (if (c.set_sink_voltage_bound
          (compensated_voltage bat_conf c bat_conf.topping_voltage)).port.bus.voltage ≥
          ((c.set_sink_voltage_bound
            (compensated_voltage bat_conf c bat_conf.topping_voltage)).num_batteries : ℚ) *
          droop_voltage
            (c.set_sink_voltage_bound
              (compensated_voltage bat_conf c bat_conf.topping_voltage)).port.bus
            (c.set_sink_voltage_bound
              (compensated_voltage bat_conf c
                bat_conf.topping_voltage)).port.bus.sink_voltage_bound - 0.05 then
          let c1a :=
            if (c.set_sink_voltage_bound
                (compensated_voltage bat_conf c bat_conf.topping_voltage)).port.current
                  < bat_conf.topping_current_cutoff ∨
                (c.set_sink_voltage_bound
                  (compensated_voltage bat_conf c
                    bat_conf.topping_voltage)).target_voltage_timer
                  > bat_conf.topping_duration then
              { c.set_sink_voltage_bound
                  (compensated_voltage bat_conf c bat_conf.topping_voltage) with full := true }
            else c.set_sink_voltage_bound
              (compensated_voltage bat_conf c bat_conf.topping_voltage)
          { c1a with target_voltage_timer := c1a.target_voltage_timer + 1 }
        else if now - (c.set_sink_voltage_bound
            (compensated_voltage bat_conf c bat_conf.topping_voltage)).time_state_changed
            > 8 * 60 * 60 then
          enter_state now (c.set_sink_voltage_bound
            (compensated_voltage bat_conf c bat_conf.topping_voltage)) .CHG_STATE_BULK
        else c.set_sink_voltage_bound
          (compensated_voltage bat_conf c bat_conf.topping_voltage)).full = true := by
      rcases hfull with hf | ⟨hheld, hcut⟩
      · split_ifs <;> simp [enter_state, Charger.set_sink_voltage_bound, hf]
      · have hheld2 : (c.set_sink_voltage_bound
              (compensated_voltage bat_conf c bat_conf.topping_voltage)).port.bus.voltage ≥
            ((c.set_sink_voltage_bound
              (compensated_voltage bat_conf c bat_conf.topping_voltage)).num_batteries : ℚ) *
            droop_voltage
              (c.set_sink_voltage_bound
                (compensated_voltage bat_conf c bat_conf.topping_voltage)).port.bus
              (c.set_sink_voltage_bound
                (compensated_voltage bat_conf c
                  bat_conf.topping_voltage)).port.bus.sink_voltage_bound - 0.05 := hheld
        have hcut2 : (c.set_sink_voltage_bound
              (compensated_voltage bat_conf c bat_conf.topping_voltage)).port.current
              < bat_conf.topping_current_cutoff ∨
            (c.set_sink_voltage_bound
              (compensated_voltage bat_conf c bat_conf.topping_voltage)).target_voltage_timer
              > bat_conf.topping_duration := hcut
        rw [if_pos hheld2]
        simp only [if_pos hcut2]
    simp only [hc2, if_true]
    simp only [topping_full_exit]
    split_ifs <;> simp [enter_state, Charger.set_pos_current_limit,
      Charger.set_sink_voltage_bound]
  · intro hstate hdur
    have hdur2 : now - (c.set_sink_voltage_bound
        (compensated_voltage bat_conf c bat_conf.equalization_voltage)).time_state_changed
        > bat_conf.equalization_duration := hdur
    simp only [charge_control, charge_temp_guard, if_neg hmax, if_neg hmin,
      charge_state_machine, hstate, if_pos hdur2]
    split_ifs <;> simp [enter_state, Charger.set_pos_current_limit,
      Charger.set_sink_voltage_bound]

/-- Witness of C6: with the 4-cell 100 Ah flooded lead-acid profile, the
topping tick of scenario B (12 Ah counted) and an equalization tick 3601 s
after entry (7 Ah counted) both end with `discharged_Ah = 0`. -/
theorem charge_control_resets_coulomb_counter_witness :
    Charger.topping_held.discharged_Ah = 12 ∧
    (charge_control droop_none 100 lead_acid_4s_100Ah Charger.topping_held
      DeviceStatus.none).1.discharged_Ah = 0 ∧
    Charger.equalizing.discharged_Ah = 7 ∧
    (charge_control droop_none 3601 lead_acid_4s_100Ah Charger.equalizing
      DeviceStatus.none).1.discharged_Ah = 0 := by
  have k1 := charge_control_resets_coulomb_counter droop_none 100 lead_acid_4s_100Ah
    Charger.topping_held DeviceStatus.none
    (by norm_num [Charger.topping_held, Charger.zero, lead_acid_4s_100Ah, battery_conf_init,
      battery_conf_init_common])
    (by norm_num [Charger.topping_held, Charger.zero, lead_acid_4s_100Ah, battery_conf_init,
      battery_conf_init_common])
  have k2 := charge_control_resets_coulomb_counter droop_none 3601 lead_acid_4s_100Ah
    Charger.equalizing DeviceStatus.none
    (by norm_num [Charger.equalizing, Charger.zero, lead_acid_4s_100Ah, battery_conf_init,
      battery_conf_init_common])
    (by norm_num [Charger.equalizing, Charger.zero, lead_acid_4s_100Ah, battery_conf_init,
      battery_conf_init_common])
  refine ⟨rfl, (k1.1 rfl (Or.inr ⟨?_, Or.inl ?_⟩)).1, rfl, (k2.2 rfl ?_).1⟩
  · norm_num [Charger.topping_held, Charger.zero, lead_acid_4s_100Ah, battery_conf_init,
      battery_conf_init_common, droop_none, compensated_voltage]
  · norm_num [Charger.topping_held, Charger.zero, lead_acid_4s_100Ah, battery_conf_init,
      battery_conf_init_common]
  · simp [Charger.equalizing, Charger.zero, lead_acid_4s_100Ah, battery_conf_init,
      battery_conf_init_common]

/-- One `update_soc` call preserves the range invariant, whatever sample the
port holds. -/
theorem update_soc_preserves_range (bat_conf : BatConf) (f : Int) (c : Charger)
    (h : soc_in_range (f, c)) : soc_in_range (update_soc bat_conf f c) := by
  obtain ⟨h1, h2, h3, h4⟩ := h
  simp only [update_soc]
  by_cases hcur : |c.port.current| < 0.2
  · simp only [if_pos hcur, soc_in_range]
    split_ifs <;> simp_all [Int.tdiv_eq_ediv] <;> omega
  · simp only [if_neg hcur, soc_in_range]
    exact ⟨h1, h2, h3, h4⟩

/-- Any sequence of `update_soc` calls preserves the range invariant. -/
theorem update_soc_seq_preserves_range (bat_conf : BatConf) (samples : List Sample) :
    ∀ st : Int × Charger, soc_in_range st → soc_in_range (update_soc_seq bat_conf samples st) := by
  induction samples with
  | nil => intro st h; exact h
  | cons m ms ih =>
    intro st h
    simp only [update_soc_seq]
    apply ih
    apply update_soc_preserves_range
    exact h

/-- C7: starting from `soc = 0` and a filtered value of 0, after every finite
sequence of `update_soc` calls on arbitrary (bus voltage, current) samples and
any profile with `ocv_full ≠ ocv_empty`, the filtered value is within
[0, 10000] and the visible `soc` within [0, 100]. -/
theorem update_soc_seq_bounds (bat_conf : BatConf) (samples : List Sample) (c : Charger)
    (hocv : bat_conf.ocv_full ≠ bat_conf.ocv_empty) (hsoc : c.soc = 0) :
    0 ≤ (update_soc_seq bat_conf samples (0, c)).1 ∧
    (update_soc_seq bat_conf samples (0, c)).1 ≤ 10000 ∧
    0 ≤ (update_soc_seq bat_conf samples (0, c)).2.soc ∧
    (update_soc_seq bat_conf samples (0, c)).2.soc ≤ 100 := by
  have _ := hocv
  apply update_soc_seq_preserves_range bat_conf samples (0, c)
  simp [soc_in_range, hsoc]

/-- Witness of C7: the 4-cell 100 Ah flooded lead-acid profile fed a step
from 1000 V at rest to -1000 V at rest and then 8.2 V under 5 A of load. -/
theorem update_soc_seq_bounds_witness :
    lead_acid_4s_100Ah.ocv_full ≠ lead_acid_4s_100Ah.ocv_empty ∧
    0 ≤ (update_soc_seq lead_acid_4s_100Ah
      [⟨1000, 0⟩, ⟨-1000, 0.1⟩, ⟨8.2, -5⟩] (0, Charger.zero)).1 ∧
    (update_soc_seq lead_acid_4s_100Ah
      [⟨1000, 0⟩, ⟨-1000, 0.1⟩, ⟨8.2, -5⟩] (0, Charger.zero)).1 ≤ 10000 ∧
    0 ≤ (update_soc_seq lead_acid_4s_100Ah
      [⟨1000, 0⟩, ⟨-1000, 0.1⟩, ⟨8.2, -5⟩] (0, Charger.zero)).2.soc ∧
    (update_soc_seq lead_acid_4s_100Ah
      [⟨1000, 0⟩, ⟨-1000, 0.1⟩, ⟨8.2, -5⟩] (0, Charger.zero)).2.soc ≤ 100 :=
  have hocv : lead_acid_4s_100Ah.ocv_full ≠ lead_acid_4s_100Ah.ocv_empty := by
    norm_num [lead_acid_4s_100Ah, battery_conf_init, battery_conf_init_common]
  ⟨hocv, update_soc_seq_bounds lead_acid_4s_100Ah
    [⟨1000, 0⟩, ⟨-1000, 0.1⟩, ⟨8.2, -5⟩] Charger.zero hocv rfl⟩

/-- C8: if the full latch is true before a `charge_control` tick and false
after it, the tick started in TRICKLE or in IDLE and ended in BULK, without a
charge temperature fault; no other path resets the latch. -/
theorem charge_control_full_reset_paths (droop_voltage : DcBus → ℚ → ℚ) (now : Int)
    (bat_conf : BatConf) (c : Charger) (dev_stat : DeviceStatus)
    (hbefore : c.full = true)
    (hafter : (charge_control droop_voltage now bat_conf c dev_stat).1.full = false) :
    (c.state = .CHG_STATE_TRICKLE ∨ c.state = .CHG_STATE_IDLE) ∧
    (charge_control droop_voltage now bat_conf c dev_stat).1.state = .CHG_STATE_BULK ∧
    ¬ c.bat_temperature > bat_conf.charge_temp_max ∧
    ¬ c.bat_temperature < bat_conf.charge_temp_min := by
  by_cases hmax : c.bat_temperature > bat_conf.charge_temp_max
  · exfalso
    have h1 : ¬ c.bat_temperature < bat_conf.charge_temp_max - 1 := by
      intro h2; linarith
    simp [charge_control, charge_temp_guard, charge_state_machine, enter_state,
      Charger.set_pos_current_limit, hmax, h1, hbefore] at hafter
  · by_cases hmin : c.bat_temperature < bat_conf.charge_temp_min
    · exfalso
      have h1 : ¬ c.bat_temperature > bat_conf.charge_temp_min + 1 := by
        intro h2; linarith
      simp [charge_control, charge_temp_guard, charge_state_machine, enter_state,
        Charger.set_pos_current_limit, hmax, hmin, h1, hbefore] at hafter
    · refine ⟨?_, ?_, hmax, hmin⟩
      · rcases hst : c.state with _ | _ | _ | _ | _
        · exact Or.inr rfl
        · exfalso
          simp only [charge_control, charge_temp_guard, if_neg hmax, if_neg hmin,
            charge_state_machine, hst] at hafter
          split_ifs at hafter <;>
            simp [enter_state, Charger.set_sink_voltage_bound, hbefore] at hafter
        · exfalso
          simp only [charge_control, charge_temp_guard, if_neg hmax, if_neg hmin,
            charge_state_machine, hst, topping_full_exit] at hafter
          split_ifs at hafter <;>
            simp_all [enter_state, Charger.set_sink_voltage_bound,
              Charger.set_pos_current_limit]
        · exact Or.inl rfl
        · exfalso
          simp only [charge_control, charge_temp_guard, if_neg hmax, if_neg hmin,
            charge_state_machine, hst] at hafter
          split_ifs at hafter <;>
            simp [enter_state, Charger.set_sink_voltage_bound,
              Charger.set_pos_current_limit, hbefore] at hafter
      · rcases hst : c.state with _ | _ | _ | _ | _
        · simp only [charge_control, charge_temp_guard, if_neg hmax, if_neg hmin,
            charge_state_machine, hst] at hafter ⊢
          split_ifs at hafter ⊢
          · simp [enter_state]
          · simp [hbefore] at hafter
        · exfalso
          simp only [charge_control, charge_temp_guard, if_neg hmax, if_neg hmin,
            charge_state_machine, hst] at hafter
          split_ifs at hafter <;>
            simp [enter_state, Charger.set_sink_voltage_bound, hbefore] at hafter
        · exfalso
          simp only [charge_control, charge_temp_guard, if_neg hmax, if_neg hmin,
            charge_state_machine, hst, topping_full_exit] at hafter
          split_ifs at hafter <;>
            simp_all [enter_state, Charger.set_sink_voltage_bound,
              Charger.set_pos_current_limit]
        · simp only [charge_control, charge_temp_guard, if_neg hmax, if_neg hmin,
            charge_state_machine, hst] at hafter ⊢
          split_ifs at hafter ⊢ <;>
            first
            | (simp [Charger.set_sink_voltage_bound, hbefore] at hafter; done)
            | simp [enter_state]
        · exfalso
          simp only [charge_control, charge_temp_guard, if_neg hmax, if_neg hmin,
            charge_state_machine, hst] at hafter
          split_ifs at hafter <;>
            simp [enter_state, Charger.set_sink_voltage_bound,
              Charger.set_pos_current_limit, hbefore] at hafter

/-- Witness of C8: with the 4-cell 100 Ah flooded lead-acid profile, a
TRICKLE tick 1801 s after the trickle target was last reached, at 8 V, resets
the latch and ends in BULK. -/
theorem charge_control_full_reset_paths_witness :
    Charger.trickle_drained.full = true ∧
    (charge_control droop_none 1801 lead_acid_4s_100Ah Charger.trickle_drained
      DeviceStatus.none).1.full = false ∧
    (charge_control droop_none 1801 lead_acid_4s_100Ah Charger.trickle_drained
      DeviceStatus.none).1.state = .CHG_STATE_BULK := by
  have hafter : (charge_control droop_none 1801 lead_acid_4s_100Ah Charger.trickle_drained
      DeviceStatus.none).1.full = false := by
    simp [charge_control, charge_temp_guard, charge_state_machine, enter_state,
      Charger.set_pos_current_limit, Charger.set_sink_voltage_bound, compensated_voltage,
      Charger.trickle_drained, Charger.zero, lead_acid_4s_100Ah, battery_conf_init,
      battery_conf_init_common]
    norm_num
  exact ⟨rfl, hafter,
    (charge_control_full_reset_paths droop_none 1801 lead_acid_4s_100Ah
      Charger.trickle_drained DeviceStatus.none rfl hafter).2.1⟩

/-- C9: `battery_conf_overwrite source destination charger` sets the
charger's `discharged_Ah`, `usable_capacity` and `soh` to 0 (and nothing else)
when `destination.nominal_capacity` differs from `source.nominal_capacity`,
and leaves the whole charger unchanged when the two are equal; re-applying the
active profile to itself changes neither the profile nor the charger. -/
theorem battery_conf_overwrite_counters (source destination : BatConf) (c : Charger) :
    (destination.nominal_capacity ≠ source.nominal_capacity →
      (battery_conf_overwrite source destination (some c)).2
        = some { c with discharged_Ah := 0, usable_capacity := 0, soh := 0 }) ∧
    (destination.nominal_capacity = source.nominal_capacity →
      (battery_conf_overwrite source destination (some c)).2 = some c) ∧
    battery_conf_overwrite source source (some c) = (source, some c) := by
  refine ⟨?_, ?_, ?_⟩
  · intro h
    simp [battery_conf_overwrite, h]
  · intro h
    simp [battery_conf_overwrite, h]
  · simp [battery_conf_overwrite, battery_conf_overwrite_conf]

/-- Witness of C9: overwriting the 4-cell 100 Ah LFP profile with the 4-cell
100 Ah lead-acid profile (equal capacities) keeps a charger with 40 Ah
counted; overwriting a zero profile with it resets the counter. -/
theorem battery_conf_overwrite_counters_witness :
    (battery_conf_overwrite lead_acid_4s_100Ah lfp_4s_100Ah
      (some (Charger.discharging 12 40))).2 = some (Charger.discharging 12 40) ∧
    (battery_conf_overwrite lead_acid_4s_100Ah BatConf.zero
      (some (Charger.discharging 12 40))).2
      = some { Charger.discharging 12 40 with
               discharged_Ah := 0, usable_capacity := 0, soh := 0 } :=
  ⟨(battery_conf_overwrite_counters lead_acid_4s_100Ah lfp_4s_100Ah
      (Charger.discharging 12 40)).2.1
      (by simp [lead_acid_4s_100Ah, lfp_4s_100Ah, battery_conf_init,
        battery_conf_init_common]),
   (battery_conf_overwrite_counters lead_acid_4s_100Ah BatConf.zero
      (Charger.discharging 12 40)).1
      (by simp [lead_acid_4s_100Ah, BatConf.zero, battery_conf_init,
        battery_conf_init_common])⟩

/-- C10: in a `discharge_control` tick with discharge not permitted
(`neg_current_limit ≥ 0`): if the bus voltage is at least `num_batteries *
(voltage_load_reconnect - current * droop_res)` and the temperature is
strictly between `discharge_temp_min + 1` and `discharge_temp_max - 1`, then
`neg_current_limit` becomes `-discharge_current_max`, `ERR_BAT_DIS_OVERTEMP`,
`ERR_BAT_DIS_UNDERTEMP` and `ERR_BAT_UNDERVOLTAGE` are cleared and nothing
else in the charger changes; otherwise the charger (limit and counters
included) and the error flags are left unchanged. -/
theorem discharge_control_reconnect (bat_conf : BatConf) (c : Charger)
    (dev_stat : DeviceStatus) (hperm : ¬ c.port.neg_current_limit < 0) :
    ((c.port.bus.voltage ≥ (c.num_batteries : ℚ) *
          (bat_conf.voltage_load_reconnect - c.port.current * c.port.bus.droop_res)
        ∧ bat_conf.discharge_temp_min + 1 < c.bat_temperature
        ∧ c.bat_temperature < bat_conf.discharge_temp_max - 1) →
      (discharge_control bat_conf c dev_stat).1.port.neg_current_limit
        = -bat_conf.discharge_current_max ∧
      (discharge_control bat_conf c dev_stat).1
        = c.set_neg_current_limit (-bat_conf.discharge_current_max) ∧
      (discharge_control bat_conf c dev_stat).2.has_error .ERR_BAT_DIS_OVERTEMP = false ∧
      (discharge_control bat_conf c dev_stat).2.has_error .ERR_BAT_DIS_UNDERTEMP = false ∧
      (discharge_control bat_conf c dev_stat).2.has_error .ERR_BAT_UNDERVOLTAGE = false) ∧
    (¬ (c.port.bus.voltage ≥ (c.num_batteries : ℚ) *
          (bat_conf.voltage_load_reconnect - c.port.current * c.port.bus.droop_res)
        ∧ bat_conf.discharge_temp_min + 1 < c.bat_temperature
        ∧ c.bat_temperature < bat_conf.discharge_temp_max - 1) →
      discharge_control bat_conf c dev_stat = (c, dev_stat)) := by
  constructor
  · rintro ⟨hv, htmin, htmax⟩
    have hcond : c.port.bus.voltage ≥ (c.num_batteries : ℚ) *
          (bat_conf.voltage_load_reconnect - c.port.current * c.port.bus.droop_res)
        ∧ c.bat_temperature < bat_conf.discharge_temp_max - 1
        ∧ c.bat_temperature > bat_conf.discharge_temp_min + 1 := ⟨hv, htmax, htmin⟩
    simp only [discharge_control, if_neg hperm, if_pos hcond]
    simp [Charger.set_neg_current_limit, DeviceStatus.has_error, DeviceStatus.clear_error]
  · intro hn
    have hcond : ¬ (c.port.bus.voltage ≥ (c.num_batteries : ℚ) *
          (bat_conf.voltage_load_reconnect - c.port.current * c.port.bus.droop_res)
        ∧ c.bat_temperature < bat_conf.discharge_temp_max - 1
        ∧ c.bat_temperature > bat_conf.discharge_temp_min + 1) := by
      rintro ⟨hv, htmax, htmin⟩
      exact hn ⟨hv, htmin, htmax⟩
    simp only [discharge_control, if_neg hperm, if_neg hcond]

/-- Witness of C10: with the 4-cell 100 Ah LFP profile (reconnect threshold
12.6 V) and a disconnected load, 13 V at 25 degC restores the limit to
-100 A. -/
theorem discharge_control_reconnect_witness :
    ¬ Charger.load_disconnected.port.neg_current_limit < 0 ∧
    (discharge_control lfp_4s_100Ah Charger.load_disconnected
      DeviceStatus.none).1.port.neg_current_limit = -100 ∧
    (discharge_control lfp_4s_100Ah Charger.load_disconnected
      DeviceStatus.none).1.num_deep_discharges = 3 := by
  have hperm : ¬ Charger.load_disconnected.port.neg_current_limit < 0 := by
    simp [Charger.load_disconnected, Charger.zero]
  have key := (discharge_control_reconnect lfp_4s_100Ah Charger.load_disconnected
    DeviceStatus.none hperm).1
    (by norm_num [Charger.load_disconnected, Charger.zero, lfp_4s_100Ah, battery_conf_init,
      battery_conf_init_common])
  refine ⟨hperm, ?_, ?_⟩
  · rw [key.1]
    simp [lfp_4s_100Ah, battery_conf_init, battery_conf_init_common]
  · rw [key.2.1]
    simp [Charger.set_neg_current_limit, Charger.load_disconnected, Charger.zero]

/-- C11 (counterexample): for the 4-cell 100 Ah lead-acid profile and a
battery count of 2, `battery_init_terminal` leaves `neg_current_limit` at
-100 A, not at `-discharge_current_max * 2`. -/
theorem battery_init_terminal_neg_limit_not_scaled :
    (battery_init_terminal Charger.zero.port lead_acid_4s_100Ah 2).neg_current_limit = -100 ∧
    (battery_init_terminal Charger.zero.port lead_acid_4s_100Ah 2).neg_current_limit
      ≠ -lead_acid_4s_100Ah.discharge_current_max * 2 := by
  constructor <;>
  · simp [battery_init_terminal, lead_acid_4s_100Ah, battery_conf_init,
      battery_conf_init_common]
    try norm_num

/-- C11 (amended): for every port, every profile and every battery count,
`battery_init_terminal` sets the port's `neg_current_limit` to
`-discharge_current_max`, independent of the battery count. -/
theorem battery_init_terminal_neg_limit (port : PowerPort) (bat : BatConf)
    (num_batteries : Nat) :
    (battery_init_terminal port bat num_batteries).neg_current_limit
      = -bat.discharge_current_max := by
  simp [battery_init_terminal]

/-- C12: for every port, every profile and every unsigned battery count,
with `n = 2` for a count of 2 and `n = 1` for every other count,
`battery_init_terminal` leaves the port with `sink_voltage_bound =
topping_voltage * n`, `pos_current_limit = charge_current_max`,
`src_voltage_bound = voltage_load_disconnect * n` and `droop_res =
-wire_resistance * n`. -/
theorem battery_init_terminal_bounds (port : PowerPort) (bat : BatConf)
    (num_batteries : Nat) :
    (battery_init_terminal port bat num_batteries).bus.sink_voltage_bound
      = bat.topping_voltage * (if num_batteries = 2 then 2 else 1) ∧
    (battery_init_terminal port bat num_batteries).pos_current_limit
      = bat.charge_current_max ∧
    (battery_init_terminal port bat num_batteries).bus.src_voltage_bound
      = bat.voltage_load_disconnect * (if num_batteries = 2 then 2 else 1) ∧
    (battery_init_terminal port bat num_batteries).bus.droop_res
      = -bat.wire_resistance * (if num_batteries = 2 then 2 else 1) := by
  by_cases h : num_batteries = 2 <;> simp [battery_init_terminal, h]

/-- What the BULK case of `charge_control` does without a charge temperature
fault: the sink voltage bound becomes the compensated topping voltage `S`, and
the state becomes TOPPING with the timer reset exactly when the bus voltage
exceeds `num_batteries * droop_voltage(S)`; otherwise it stays BULK. -/
theorem charge_control_bulk_transition (droop_voltage : DcBus → ℚ → ℚ) (now : Int)
    (bat_conf : BatConf) (c : Charger) (dev_stat : DeviceStatus)
    (hstate : c.state = .CHG_STATE_BULK)
    (hmax : ¬ c.bat_temperature > bat_conf.charge_temp_max)
    (hmin : ¬ c.bat_temperature < bat_conf.charge_temp_min) :
    (c.port.bus.voltage > (c.num_batteries : ℚ) *
        droop_voltage
          (c.set_sink_voltage_bound
            (compensated_voltage bat_conf c bat_conf.topping_voltage)).port.bus
          (compensated_voltage bat_conf c bat_conf.topping_voltage) →
      (charge_control droop_voltage now bat_conf c dev_stat).1.state = .CHG_STATE_TOPPING ∧
      (charge_control droop_voltage now bat_conf c dev_stat).1.target_voltage_timer = 0) ∧
    (¬ c.port.bus.voltage > (c.num_batteries : ℚ) *
        droop_voltage
          (c.set_sink_voltage_bound
            (compensated_voltage bat_conf c bat_conf.topping_voltage)).port.bus
          (compensated_voltage bat_conf c bat_conf.topping_voltage) →
      (charge_control droop_voltage now bat_conf c dev_stat).1.state = .CHG_STATE_BULK) := by
  constructor
  · intro h
    have h2 : (c.set_sink_voltage_bound
        (compensated_voltage bat_conf c bat_conf.topping_voltage)).port.bus.voltage >
        ((c.set_sink_voltage_bound
          (compensated_voltage bat_conf c bat_conf.topping_voltage)).num_batteries : ℚ) *
        droop_voltage
          (c.set_sink_voltage_bound
            (compensated_voltage bat_conf c bat_conf.topping_voltage)).port.bus
          (c.set_sink_voltage_bound
            (compensated_voltage bat_conf c
              bat_conf.topping_voltage)).port.bus.sink_voltage_bound := h
    simp only [charge_control, charge_temp_guard, if_neg hmax, if_neg hmin,
      charge_state_machine, hstate, if_pos h2]
    simp [enter_state]
  · intro h
    have h2 : ¬ (c.set_sink_voltage_bound
        (compensated_voltage bat_conf c bat_conf.topping_voltage)).port.bus.voltage >
        ((c.set_sink_voltage_bound
          (compensated_voltage bat_conf c bat_conf.topping_voltage)).num_batteries : ℚ) *
        droop_voltage
          (c.set_sink_voltage_bound
            (compensated_voltage bat_conf c bat_conf.topping_voltage)).port.bus
          (c.set_sink_voltage_bound
            (compensated_voltage bat_conf c
              bat_conf.topping_voltage)).port.bus.sink_voltage_bound := h
    simp only [charge_control, charge_temp_guard, if_neg hmax, if_neg hmin,
      charge_state_machine, hstate, if_neg h2]
    simp [Charger.set_sink_voltage_bound, hstate]

/-- C13 (failing input): two batteries in series, the 4-cell 100 Ah lead-acid
profile, BULK at 25 degC with 20 V on the bus and a droop-free bus.  The sink
voltage bound just computed is `S = 19.2 V` and the bus voltage exceeds
`droop_voltage(S) = 19.2 V`, yet the tick stays in BULK, because the code
compares against `num_batteries * droop_voltage(S) = 38.4 V`. -/
theorem charge_control_bulk_two_batteries_stuck :
    (charge_control droop_none 100 lead_acid_4s_100Ah Charger.bulk_two_batteries
      DeviceStatus.none).1.port.bus.sink_voltage_bound = 19.2 ∧
    Charger.bulk_two_batteries.port.bus.voltage >
      droop_none
        (charge_control droop_none 100 lead_acid_4s_100Ah Charger.bulk_two_batteries
          DeviceStatus.none).1.port.bus
        19.2 ∧
    (charge_control droop_none 100 lead_acid_4s_100Ah Charger.bulk_two_batteries
      DeviceStatus.none).1.state = .CHG_STATE_BULK := by
  refine ⟨?_, ?_, ?_⟩
  · simp [charge_control, charge_temp_guard, charge_state_machine, enter_state,
      Charger.set_sink_voltage_bound, compensated_voltage, droop_none,
      Charger.bulk_two_batteries, Charger.zero, lead_acid_4s_100Ah, battery_conf_init,
      battery_conf_init_common]
    norm_num
  · norm_num [droop_none, Charger.bulk_two_batteries, Charger.zero]
  · simp [charge_control, charge_temp_guard, charge_state_machine, enter_state,
      Charger.set_sink_voltage_bound, compensated_voltage, droop_none,
      Charger.bulk_two_batteries, Charger.zero, lead_acid_4s_100Ah, battery_conf_init,
      battery_conf_init_common]
    norm_num

/-- C14: a `charge_control` tick that starts in TRICKLE with the temperature
between `charge_temp_min` and `charge_temp_max` ends in TRICKLE or BULK, never
in IDLE; the target-reached timestamp is refreshed to the current uptime when
the bus voltage reaches the trickle target and kept otherwise; the tick ends
in BULK exactly when `uptime - time_target_voltage_reached >
trickle_recharge_time` for the refreshed timestamp, and then
`pos_current_limit = charge_current_max` and `full = false`. -/
theorem charge_control_trickle (droop_voltage : DcBus → ℚ → ℚ) (now : Int)
    (bat_conf : BatConf) (c : Charger) (dev_stat : DeviceStatus)
    (hstate : c.state = .CHG_STATE_TRICKLE)
    (hmin : bat_conf.charge_temp_min ≤ c.bat_temperature)
    (hmax : c.bat_temperature ≤ bat_conf.charge_temp_max) :
    ((charge_control droop_voltage now bat_conf c dev_stat).1.state = .CHG_STATE_TRICKLE ∨
      (charge_control droop_voltage now bat_conf c dev_stat).1.state = .CHG_STATE_BULK) ∧
    (charge_control droop_voltage now bat_conf c dev_stat).1.state ≠ .CHG_STATE_IDLE ∧
    (charge_control droop_voltage now bat_conf c dev_stat).1.time_target_voltage_reached
      = (if c.port.bus.voltage ≥ (c.num_batteries : ℚ) *
            (compensated_voltage bat_conf c bat_conf.trickle_voltage
              - c.port.current * c.port.bus.droop_res)
         then now else c.time_target_voltage_reached) ∧
    ((charge_control droop_voltage now bat_conf c dev_stat).1.state = .CHG_STATE_BULK ↔
      now - (charge_control droop_voltage now bat_conf c
        dev_stat).1.time_target_voltage_reached > bat_conf.trickle_recharge_time) ∧
    ((charge_control droop_voltage now bat_conf c dev_stat).1.state = .CHG_STATE_BULK →
      (charge_control droop_voltage now bat_conf c dev_stat).1.port.pos_current_limit
        = bat_conf.charge_current_max ∧
      (charge_control droop_voltage now bat_conf c dev_stat).1.full = false) := by
  have g1 : ¬ c.bat_temperature > bat_conf.charge_temp_max := not_lt.mpr hmax
  have g2 : ¬ c.bat_temperature < bat_conf.charge_temp_min := not_lt.mpr hmin
  simp only [charge_control, charge_temp_guard, if_neg g1, if_neg g2, charge_state_machine,
    hstate]
  by_cases hv : c.port.bus.voltage ≥ (c.num_batteries : ℚ) *
      (compensated_voltage bat_conf c bat_conf.trickle_voltage
        - c.port.current * c.port.bus.droop_res)
  · by_cases ht : bat_conf.trickle_recharge_time < 0
    · simp [enter_state, Charger.set_sink_voltage_bound, Charger.set_pos_current_limit, hv,
        ht, hstate]
    · simp [enter_state, Charger.set_sink_voltage_bound, Charger.set_pos_current_limit, hv,
        ht, hstate]
  · by_cases ht : now - c.time_target_voltage_reached > bat_conf.trickle_recharge_time
    · simp [enter_state, Charger.set_sink_voltage_bound, Charger.set_pos_current_limit, hv,
        ht, hstate]
    · simp [enter_state, Charger.set_sink_voltage_bound, Charger.set_pos_current_limit, hv,
        ht, hstate]

/-- Witness of C14: with the 4-cell 100 Ah flooded lead-acid profile, a
TRICKLE tick at 8 V, 1801 s after the trickle target was last reached, ends in
BULK with a current limit of 100 A and the full latch cleared. -/
theorem charge_control_trickle_witness :
    (charge_control droop_none 1801 lead_acid_4s_100Ah Charger.trickle_drained
      DeviceStatus.none).1.time_target_voltage_reached = 0 ∧
    (charge_control droop_none 1801 lead_acid_4s_100Ah Charger.trickle_drained
      DeviceStatus.none).1.state = .CHG_STATE_BULK ∧
    (charge_control droop_none 1801 lead_acid_4s_100Ah Charger.trickle_drained
      DeviceStatus.none).1.port.pos_current_limit = 100 ∧
    (charge_control droop_none 1801 lead_acid_4s_100Ah Charger.trickle_drained
      DeviceStatus.none).1.full = false := by
  have key := charge_control_trickle droop_none 1801 lead_acid_4s_100Ah
    Charger.trickle_drained DeviceStatus.none rfl
    (by norm_num [Charger.trickle_drained, Charger.zero, lead_acid_4s_100Ah,
      battery_conf_init, battery_conf_init_common])
    (by norm_num [Charger.trickle_drained, Charger.zero, lead_acid_4s_100Ah,
      battery_conf_init, battery_conf_init_common])
  have hts : (charge_control droop_none 1801 lead_acid_4s_100Ah Charger.trickle_drained
      DeviceStatus.none).1.time_target_voltage_reached = 0 := by
    rw [key.2.2.1]
    norm_num [compensated_voltage, Charger.trickle_drained, Charger.zero, lead_acid_4s_100Ah,
      battery_conf_init, battery_conf_init_common]
  have hbulk : (charge_control droop_none 1801 lead_acid_4s_100Ah Charger.trickle_drained
      DeviceStatus.none).1.state = .CHG_STATE_BULK := by
    rw [key.2.2.2.1, hts]
    simp [lead_acid_4s_100Ah, battery_conf_init, battery_conf_init_common]
  refine ⟨hts, hbulk, ?_, (key.2.2.2.2 hbulk).2⟩
  rw [(key.2.2.2.2 hbulk).1]
  simp [lead_acid_4s_100Ah, battery_conf_init, battery_conf_init_common]

/-- C15: a `charge_control` tick that starts in EQUALIZATION without a charge
temperature fault: when more than `equalization_duration` seconds have passed
since the state was entered, `time_last_equalization` becomes the current
uptime, `deep_dis_last_equalization` becomes `num_deep_discharges`, and the
state becomes TRICKLE with the temperature-compensated trickle voltage as sink
bound when trickle is enabled, else IDLE with `pos_current_limit = 0`;
otherwise the state stays EQUALIZATION with the temperature-compensated
equalization voltage as sink bound and both baselines unchanged. -/
theorem charge_control_equalization (droop_voltage : DcBus → ℚ → ℚ) (now : Int)
    (bat_conf : BatConf) (c : Charger) (dev_stat : DeviceStatus)
    (hstate : c.state = .CHG_STATE_EQUALIZATION)
    (hmax : ¬ c.bat_temperature > bat_conf.charge_temp_max)
    (hmin : ¬ c.bat_temperature < bat_conf.charge_temp_min) :
    (now - c.time_state_changed > bat_conf.equalization_duration →
      (charge_control droop_voltage now bat_conf c dev_stat).1.time_last_equalization = now ∧
      (charge_control droop_voltage now bat_conf c dev_stat).1.deep_dis_last_equalization
        = c.num_deep_discharges ∧
      (bat_conf.trickle_enabled = true →
        (charge_control droop_voltage now bat_conf c dev_stat).1.state
          = .CHG_STATE_TRICKLE ∧
        (charge_control droop_voltage now bat_conf c dev_stat).1.port.bus.sink_voltage_bound
          = (c.num_batteries : ℚ) * (bat_conf.trickle_voltage +
              bat_conf.temperature_compensation * (c.bat_temperature - 25))) ∧
      (bat_conf.trickle_enabled = false →
        (charge_control droop_voltage now bat_conf c dev_stat).1.state = .CHG_STATE_IDLE ∧
        (charge_control droop_voltage now bat_conf c dev_stat).1.port.pos_current_limit
          = 0)) ∧
    (¬ now - c.time_state_changed > bat_conf.equalization_duration →
      (charge_control droop_voltage now bat_conf c dev_stat).1.state
        = .CHG_STATE_EQUALIZATION ∧
      (charge_control droop_voltage now bat_conf c dev_stat).1.port.bus.sink_voltage_bound
        = (c.num_batteries : ℚ) * (bat_conf.equalization_voltage +
            bat_conf.temperature_compensation * (c.bat_temperature - 25)) ∧
      (charge_control droop_voltage now bat_conf c dev_stat).1.time_last_equalization
        = c.time_last_equalization ∧
      (charge_control droop_voltage now bat_conf c dev_stat).1.deep_dis_last_equalization
        = c.deep_dis_last_equalization) := by
  constructor
  · intro hdur
    have hdur2 : now - (c.set_sink_voltage_bound
        (compensated_voltage bat_conf c bat_conf.equalization_voltage)).time_state_changed
        > bat_conf.equalization_duration := hdur
    simp only [charge_control, charge_temp_guard, if_neg hmax, if_neg hmin,
      charge_state_machine, hstate, if_pos hdur2]
    by_cases htr : bat_conf.trickle_enabled = true
    · simp [htr, enter_state, Charger.set_sink_voltage_bound, compensated_voltage]
    · simp [htr, enter_state, Charger.set_sink_voltage_bound, Charger.set_pos_current_limit]
  · intro hdur
    have hdur2 : ¬ now - (c.set_sink_voltage_bound
        (compensated_voltage bat_conf c bat_conf.equalization_voltage)).time_state_changed
        > bat_conf.equalization_duration := hdur
    simp only [charge_control, charge_temp_guard, if_neg hmax, if_neg hmin,
      charge_state_machine, hstate, if_neg hdur2]
    simp [Charger.set_sink_voltage_bound, compensated_voltage, hstate]

/-- Witness of C15: with the 4-cell 100 Ah flooded lead-acid profile (trickle
enabled, duration 3600 s) an equalization entered at time 0 ends at time 3601
in TRICKLE with a sink bound of 9.4 V and the baseline timestamp 3601. -/
theorem charge_control_equalization_witness :
    (charge_control droop_none 3601 lead_acid_4s_100Ah Charger.equalizing
      DeviceStatus.none).1.time_last_equalization = 3601 ∧
    (charge_control droop_none 3601 lead_acid_4s_100Ah Charger.equalizing
      DeviceStatus.none).1.state = .CHG_STATE_TRICKLE ∧
    (charge_control droop_none 3601 lead_acid_4s_100Ah Charger.equalizing
      DeviceStatus.none).1.port.bus.sink_voltage_bound = 9.4 := by
  have key := (charge_control_equalization droop_none 3601 lead_acid_4s_100Ah
    Charger.equalizing DeviceStatus.none rfl
    (by norm_num [Charger.equalizing, Charger.zero, lead_acid_4s_100Ah, battery_conf_init,
      battery_conf_init_common])
    (by norm_num [Charger.equalizing, Charger.zero, lead_acid_4s_100Ah, battery_conf_init,
      battery_conf_init_common])).1
    (by simp [Charger.equalizing, Charger.zero, lead_acid_4s_100Ah, battery_conf_init,
      battery_conf_init_common])
  have htr : lead_acid_4s_100Ah.trickle_enabled = true := by
    simp [lead_acid_4s_100Ah, battery_conf_init, battery_conf_init_common]
  refine ⟨key.1, (key.2.2.1 htr).1, ?_⟩
  rw [(key.2.2.1 htr).2]
  norm_num [Charger.equalizing, Charger.zero, lead_acid_4s_100Ah, battery_conf_init,
    battery_conf_init_common]

/-- C16 (counterexample): with open-circuit references 0 V and 20 V, 1 V on
the bus at zero current and a filtered value still 0, the raw value is exactly
500, yet `update_soc` does not seed the filter with it: the filtered value
becomes `0 + (500 - 0) / 100 = 5`. -/
theorem update_soc_raw_500_not_seeded :
    |(Charger.zero.with_voltage 1).port.current| < 0.2 ∧
    soc_raw ocv_0_20_conf (Charger.zero.with_voltage 1) = 500 ∧
    (update_soc ocv_0_20_conf 0 (Charger.zero.with_voltage 1)).1 = 5 := by
  refine ⟨?_, ?_, ?_⟩
  · norm_num [Charger.with_voltage, Charger.zero]
  · simp [soc_raw, float_to_int, ocv_0_20_conf, BatConf.zero, Charger.with_voltage,
      Charger.zero]
    norm_num
  · simp [update_soc, float_to_int, ocv_0_20_conf, BatConf.zero, Charger.with_voltage,
      Charger.zero]
    norm_num
    decide

/-- C16 (amended): for every `update_soc` call with `|current| < 0.2`, with
`raw` the value `(bus voltage - ocv_empty) / (ocv_full - ocv_empty) * 10000`
truncated to an integer: if the filtered value is still 0 and `raw > 500`,
the filtered value becomes `raw` (then clamped); in every other case it
becomes `filtered + (raw - filtered) / 100` with truncating integer division
(then clamped). -/
theorem update_soc_filter_step (bat_conf : BatConf) (soc_filtered : Int) (c : Charger)
    (hcur : |c.port.current| < 0.2) :
    (soc_filtered = 0 ∧ soc_raw bat_conf c > 500 →
      (update_soc bat_conf soc_filtered c).1 = soc_clamp (soc_raw bat_conf c)) ∧
    (¬ (soc_filtered = 0 ∧ soc_raw bat_conf c > 500) →
      (update_soc bat_conf soc_filtered c).1
        = soc_clamp (soc_filtered + Int.tdiv (soc_raw bat_conf c - soc_filtered) 100)) := by
  constructor
  · rintro ⟨h0, hraw⟩
    have hc : soc_raw bat_conf c > 500 ∧ soc_filtered = 0 := ⟨hraw, h0⟩
    simp only [update_soc, if_pos hcur]
    simp only [soc_raw] at hc ⊢
    simp only [if_pos hc, soc_clamp]
  · intro hn
    have hc : ¬ (soc_raw bat_conf c > 500 ∧ soc_filtered = 0) := by
      rintro ⟨hraw, h0⟩
      exact hn ⟨h0, hraw⟩
    simp only [update_soc, if_pos hcur]
    simp only [soc_raw] at hc ⊢
    simp only [if_neg hc, soc_clamp]

/-- Witness of C16 (amended): with open-circuit references 0 V and 20 V and
a filtered value still 0, 10 V at zero current gives a raw value of 5000,
which seeds the filter directly. -/
theorem update_soc_filter_step_witness :
    |(Charger.zero.with_voltage 10).port.current| < 0.2 ∧
    soc_raw ocv_0_20_conf (Charger.zero.with_voltage 10) = 5000 ∧
    (update_soc ocv_0_20_conf 0 (Charger.zero.with_voltage 10)).1 = 5000 := by
  have hcur : |(Charger.zero.with_voltage 10).port.current| < 0.2 := by
    norm_num [Charger.with_voltage, Charger.zero]
  have hraw : soc_raw ocv_0_20_conf (Charger.zero.with_voltage 10) = 5000 := by
    simp [soc_raw, float_to_int, ocv_0_20_conf, BatConf.zero, Charger.with_voltage,
      Charger.zero]
    norm_num
  refine ⟨hcur, hraw, ?_⟩
  rw [(update_soc_filter_step ocv_0_20_conf 0 (Charger.zero.with_voltage 10) hcur).1
    ⟨rfl, by rw [hraw]; decide⟩, hraw]
  decide

/-- C17 (counterexample): with the 4-cell 100 Ah LFP profile (disconnect
threshold 12 V, maximum 50 degC), discharge permitted, 55 degC and 11.8 V on
the bus, the undervoltage branch runs and `ERR_BAT_DIS_OVERTEMP` stays
unset. -/
theorem discharge_control_overtemp_not_raised :
    (Charger.discharging_hot 11.8).port.neg_current_limit < 0 ∧
    (Charger.discharging_hot 11.8).bat_temperature > lfp_4s_100Ah.discharge_temp_max ∧
    (discharge_control lfp_4s_100Ah (Charger.discharging_hot 11.8)
      DeviceStatus.none).2.has_error .ERR_BAT_DIS_OVERTEMP = false := by
  refine ⟨?_, ?_, ?_⟩
  · norm_num [Charger.discharging_hot, Charger.discharging, Charger.zero]
  · norm_num [Charger.discharging_hot, Charger.discharging, Charger.zero, lfp_4s_100Ah,
      battery_conf_init, battery_conf_init_common]
  · simp [discharge_control, Charger.set_neg_current_limit, Charger.discharging_hot,
      Charger.discharging, Charger.zero, lfp_4s_100Ah, battery_conf_init,
      battery_conf_init_common, DeviceStatus.none, DeviceStatus.set_error,
      DeviceStatus.has_error]
    norm_num
    decide

/-- C17 (amended): in a `discharge_control` tick with discharge permitted and
the battery temperature above `discharge_temp_max` or below
`discharge_temp_min`, `neg_current_limit` is 0 afterwards; when moreover the
undervoltage disconnect condition does not hold in that tick,
`ERR_BAT_DIS_OVERTEMP` is set if the temperature is above the maximum,
`ERR_BAT_DIS_UNDERTEMP` is set if it is below the minimum and not above the
maximum, and `num_deep_discharges`, `usable_capacity` and `soh` are
unchanged. -/
theorem discharge_control_temp_disconnect (bat_conf : BatConf) (c : Charger)
    (dev_stat : DeviceStatus)
    (hperm : c.port.neg_current_limit < 0)
    (htemp : c.bat_temperature > bat_conf.discharge_temp_max ∨
      c.bat_temperature < bat_conf.discharge_temp_min) :
    (discharge_control bat_conf c dev_stat).1.port.neg_current_limit = 0 ∧
    (¬ c.port.bus.voltage < (c.num_batteries : ℚ) *
        (bat_conf.voltage_load_disconnect - c.port.current * c.port.bus.droop_res) →
      (c.bat_temperature > bat_conf.discharge_temp_max →
        (discharge_control bat_conf c dev_stat).2.has_error .ERR_BAT_DIS_OVERTEMP = true) ∧
      (c.bat_temperature < bat_conf.discharge_temp_min →
        ¬ c.bat_temperature > bat_conf.discharge_temp_max →
        (discharge_control bat_conf c dev_stat).2.has_error .ERR_BAT_DIS_UNDERTEMP = true) ∧
      (discharge_control bat_conf c dev_stat).1.num_deep_discharges
        = c.num_deep_discharges ∧
      (discharge_control bat_conf c dev_stat).1.usable_capacity = c.usable_capacity ∧
      (discharge_control bat_conf c dev_stat).1.soh = c.soh) := by
  by_cases huv : c.port.bus.voltage < (c.num_batteries : ℚ) *
      (bat_conf.voltage_load_disconnect - c.port.current * c.port.bus.droop_res)
  · simp only [discharge_control, if_pos hperm, if_pos huv]
    refine ⟨?_, fun h => absurd huv h⟩
    split_ifs <;> simp [Charger.set_neg_current_limit]
  · simp only [discharge_control, if_pos hperm, if_neg huv]
    by_cases hmax : c.bat_temperature > bat_conf.discharge_temp_max
    · simp [hmax, Charger.set_neg_current_limit, DeviceStatus.has_error,
        DeviceStatus.set_error]
    · have hmin : c.bat_temperature < bat_conf.discharge_temp_min := by
        rcases htemp with h | h
        · exact absurd h hmax
        · exact h
      simp [hmax, hmin, Charger.set_neg_current_limit, DeviceStatus.has_error,
        DeviceStatus.set_error]

/-- Witness of C17 (amended): with the 4-cell 100 Ah LFP profile, discharge
permitted, 55 degC and 13 V on the bus, the limit becomes 0,
`ERR_BAT_DIS_OVERTEMP` is raised and the deep-discharge counter stays 0. -/
theorem discharge_control_temp_disconnect_witness :
    (discharge_control lfp_4s_100Ah (Charger.discharging_hot 13)
      DeviceStatus.none).1.port.neg_current_limit = 0 ∧
    (discharge_control lfp_4s_100Ah (Charger.discharging_hot 13)
      DeviceStatus.none).2.has_error .ERR_BAT_DIS_OVERTEMP = true ∧
    (discharge_control lfp_4s_100Ah (Charger.discharging_hot 13)
      DeviceStatus.none).1.num_deep_discharges = 0 := by
  have hot : (Charger.discharging_hot 13).bat_temperature
      > lfp_4s_100Ah.discharge_temp_max := by
    norm_num [Charger.discharging_hot, Charger.discharging, Charger.zero, lfp_4s_100Ah,
      battery_conf_init, battery_conf_init_common]
  have key := discharge_control_temp_disconnect lfp_4s_100Ah (Charger.discharging_hot 13)
    DeviceStatus.none
    (by norm_num [Charger.discharging_hot, Charger.discharging, Charger.zero])
    (Or.inl hot)
  have huv : ¬ (Charger.discharging_hot 13).port.bus.voltage <
      ((Charger.discharging_hot 13).num_batteries : ℚ) *
        (lfp_4s_100Ah.voltage_load_disconnect - (Charger.discharging_hot 13).port.current *
          (Charger.discharging_hot 13).port.bus.droop_res) := by
    norm_num [Charger.discharging_hot, Charger.discharging, Charger.zero, lfp_4s_100Ah,
      battery_conf_init, battery_conf_init_common]
  refine ⟨key.1, (key.2 huv).1 hot, ?_⟩
  rw [(key.2 huv).2.2.1]
  simp [Charger.discharging_hot, Charger.discharging, Charger.zero]

/-- C18 (counterexample): the 6-cell 100 Ah AGM profile with the cutoff
lowered to 0.5 A is accepted by `battery_conf_check`, although 0.5 A is below
1 % of the nominal capacity (1 A). -/
theorem battery_conf_check_accepts_low_cutoff :
    battery_conf_check low_cutoff_conf = true ∧
    ¬ (0.01 * low_cutoff_conf.nominal_capacity ≤ low_cutoff_conf.topping_current_cutoff) := by
  constructor
  · simp [battery_conf_check, low_cutoff_conf, battery_conf_init, battery_conf_init_common,
      BatConf.zero, LOAD_CURRENT_MAX]
    norm_num
  · norm_num [low_cutoff_conf, battery_conf_init, battery_conf_init_common]

/-- C18 (amended): every profile accepted by `battery_conf_check` has a
`topping_current_cutoff` above the absolute value 0.01 A and below 10 % of its
nominal capacity. -/
theorem battery_conf_check_cutoff_range (bat_conf : BatConf)
    (h : battery_conf_check bat_conf = true) :
    0.01 < bat_conf.topping_current_cutoff ∧
    bat_conf.topping_current_cutoff < bat_conf.nominal_capacity / 10 ∧
    bat_conf.topping_current_cutoff ≤ 0.10 * bat_conf.nominal_capacity := by
  simp only [battery_conf_check, Bool.and_eq_true, decide_eq_true_eq] at h
  obtain ⟨⟨⟨_, hhi⟩, hlo⟩, _⟩ := h
  have hhi2 : bat_conf.topping_current_cutoff < bat_conf.nominal_capacity / 10 := by
    norm_num at hhi ⊢
    exact hhi
  refine ⟨hlo, hhi2, ?_⟩
  have : bat_conf.nominal_capacity / 10 = 0.10 * bat_conf.nominal_capacity := by
    norm_num
    ring
  linarith

/-- Witness of C18 (amended): the 6-cell 100 Ah AGM profile with the cutoff
lowered to 0.5 A. -/
theorem battery_conf_check_cutoff_range_witness :
    battery_conf_check low_cutoff_conf = true ∧
    0.01 < low_cutoff_conf.topping_current_cutoff ∧
    low_cutoff_conf.topping_current_cutoff < low_cutoff_conf.nominal_capacity / 10 :=
  have hacc : battery_conf_check low_cutoff_conf = true := by
    simp [battery_conf_check, low_cutoff_conf, battery_conf_init, battery_conf_init_common,
      BatConf.zero, LOAD_CURRENT_MAX]
    norm_num
  ⟨hacc, (battery_conf_check_cutoff_range low_cutoff_conf hacc).1,
    (battery_conf_check_cutoff_range low_cutoff_conf hacc).2.1⟩

/-- C19 (counterexample): a zero profile and the same profile with a nominal
capacity of 100 Ah differ, yet `battery_conf_changed` returns false. -/
theorem battery_conf_changed_misses_capacity :
    battery_conf_changed BatConf.zero { BatConf.zero with nominal_capacity := 100 } = false ∧
    BatConf.zero ≠ { BatConf.zero with nominal_capacity := 100 } := by
  constructor
  · simp [battery_conf_changed]
  · intro h
    have h2 := congrArg BatConf.nominal_capacity h
    norm_num [BatConf.zero] at h2

/-- C19 (amended): `battery_conf_changed a b` returns false if and only if
the two profiles agree on the nineteen compared fields (topping voltage,
recharge voltage, load reconnect and disconnect voltage, absolute maximum and
minimum voltage, charge current maximum, topping current cutoff and duration,
trickle enable flag, voltage and recharge time, the four temperature limits,
temperature compensation, internal and wire resistance). -/
theorem battery_conf_changed_false_iff (a b : BatConf) :
    battery_conf_changed a b = false ↔
      (a.topping_voltage = b.topping_voltage ∧
       a.voltage_recharge = b.voltage_recharge ∧
       a.voltage_load_reconnect = b.voltage_load_reconnect ∧
       a.voltage_load_disconnect = b.voltage_load_disconnect ∧
       a.voltage_absolute_max = b.voltage_absolute_max ∧
       a.voltage_absolute_min = b.voltage_absolute_min ∧
       a.charge_current_max = b.charge_current_max ∧
       a.topping_current_cutoff = b.topping_current_cutoff ∧
       a.topping_duration = b.topping_duration ∧
       a.trickle_enabled = b.trickle_enabled ∧
       a.trickle_voltage = b.trickle_voltage ∧
       a.trickle_recharge_time = b.trickle_recharge_time ∧
       a.charge_temp_max = b.charge_temp_max ∧
       a.charge_temp_min = b.charge_temp_min ∧
       a.discharge_temp_max = b.discharge_temp_max ∧
       a.discharge_temp_min = b.discharge_temp_min ∧
       a.temperature_compensation = b.temperature_compensation ∧
       a.internal_resistance = b.internal_resistance ∧
       a.wire_resistance = b.wire_resistance) := by
  simp only [battery_conf_changed]
  constructor
  · intro h
    by_contra hne
    apply absurd h
    rw [if_pos]
    · simp
    · by_contra hall
      apply hne
      simp only [not_or, not_not, ne_eq] at hall
      exact hall
  · intro h
    rw [if_neg]
    simp only [not_or, not_not, ne_eq]
    exact h

/-- Witness of C19 (amended): the 4-cell 100 Ah lead-acid profile and a copy
with another discharge current maximum agree on the compared fields, so
`battery_conf_changed` returns false. -/
theorem battery_conf_changed_false_iff_witness :
    battery_conf_changed lead_acid_4s_100Ah
      { lead_acid_4s_100Ah with discharge_current_max := 50 } = false :=
  (battery_conf_changed_false_iff lead_acid_4s_100Ah
    { lead_acid_4s_100Ah with discharge_current_max := 50 }).mpr
    ⟨rfl, rfl, rfl, rfl, rfl, rfl, rfl, rfl, rfl, rfl, rfl, rfl, rfl, rfl, rfl, rfl, rfl, rfl,
      rfl⟩

/-- C20 (counterexample): overwriting a zero profile with the 4-cell 100 Ah
lead-acid profile leaves the destination's `discharge_current_max` at 0 while
the source has 100 A, so the destination does not equal the source. -/
theorem battery_conf_overwrite_keeps_discharge_max :
    (battery_conf_overwrite lead_acid_4s_100Ah BatConf.zero none).1.discharge_current_max = 0 ∧
    lead_acid_4s_100Ah.discharge_current_max = 100 ∧
    (battery_conf_overwrite lead_acid_4s_100Ah BatConf.zero none).1 ≠ lead_acid_4s_100Ah := by
  have h1 : (battery_conf_overwrite lead_acid_4s_100Ah BatConf.zero
      none).1.discharge_current_max = 0 := by
    simp only [battery_conf_overwrite, battery_conf_overwrite_conf]
    split_ifs <;> simp [BatConf.zero]
  have h2 : lead_acid_4s_100Ah.discharge_current_max = 100 := by
    simp [lead_acid_4s_100Ah, battery_conf_init, battery_conf_init_common]
  refine ⟨h1, h2, ?_⟩
  intro h
  rw [h, h2] at h1
  norm_num at h1

/-- C20 (amended): after `battery_conf_overwrite source destination charger`
the destination equals the source in the nineteen copied fields and in the
nominal capacity, and keeps its own `discharge_current_max`,
`time_limit_recharge`, `ocv_full`, `ocv_empty` and its six equalization
settings. -/
theorem battery_conf_overwrite_profile (source destination : BatConf)
    (charger : Option Charger) :
    (battery_conf_overwrite source destination charger).1 =
      { source with
        discharge_current_max := destination.discharge_current_max
        time_limit_recharge := destination.time_limit_recharge
        ocv_full := destination.ocv_full
        ocv_empty := destination.ocv_empty
        equalization_enabled := destination.equalization_enabled
        equalization_voltage := destination.equalization_voltage
        equalization_duration := destination.equalization_duration
        equalization_current_limit := destination.equalization_current_limit
        equalization_trigger_days := destination.equalization_trigger_days
        equalization_trigger_deep_cycles := destination.equalization_trigger_deep_cycles } := by
  simp only [battery_conf_overwrite, battery_conf_overwrite_conf]
  by_cases h : destination.nominal_capacity = source.nominal_capacity
  · simp [h]
  · simp [h]

/-- C21 (counterexample): the 6-cell 100 Ah flooded profile derived by
`battery_conf_init` from a zero-initialised profile has `equalization_enabled
= false`. -/
theorem battery_conf_init_flooded_equalization_off :
    (battery_conf_init BatConf.zero .BAT_TYPE_FLOODED 6 100).equalization_enabled
      = false := by
  simp [battery_conf_init]

/-- C21 (amended): for every prior profile, cell count and capacity,
`battery_conf_init` yields `equalization_enabled = false` for the flooded, the
AGM and the gel chemistry alike. -/
theorem battery_conf_init_lead_acid_equalization_disabled (bat : BatConf)
    (num_cells : Int) (nominal_capacity : ℚ) :
    (battery_conf_init bat .BAT_TYPE_FLOODED num_cells nominal_capacity).equalization_enabled
      = false ∧
    (battery_conf_init bat .BAT_TYPE_AGM num_cells nominal_capacity).equalization_enabled
      = false ∧
    (battery_conf_init bat .BAT_TYPE_GEL num_cells nominal_capacity).equalization_enabled
      = false := by
  refine ⟨?_, ?_, ?_⟩ <;> simp [battery_conf_init]

/-- C22: for every prior profile, cell count `n` and capacity `C`,
`battery_conf_init` with the LFP chemistry yields `topping_voltage = 3.55 n`,
`voltage_absolute_max = 3.60 n`, `voltage_recharge = 3.35 n`,
`voltage_load_disconnect = 3.00 n`, `voltage_load_reconnect = 3.15 n`,
`topping_current_cutoff = C / 10`, trickle and equalization disabled,
`temperature_compensation = 0`, `charge_temp_min = 0`, and the common defaults
`charge_current_max = discharge_current_max = C`, `charge_temp_max = 50`,
discharge temperature window -10..50, `topping_duration = 7200` and
`time_limit_recharge = 60`. -/
theorem battery_conf_init_lfp (bat : BatConf) (num_cells : Int) (nominal_capacity : ℚ) :
    (battery_conf_init bat .BAT_TYPE_LFP num_cells nominal_capacity).topping_voltage
      = 3.55 * (num_cells : ℚ) ∧
    (battery_conf_init bat .BAT_TYPE_LFP num_cells nominal_capacity).voltage_absolute_max
      = 3.60 * (num_cells : ℚ) ∧
    (battery_conf_init bat .BAT_TYPE_LFP num_cells nominal_capacity).voltage_recharge
      = 3.35 * (num_cells : ℚ) ∧
    (battery_conf_init bat .BAT_TYPE_LFP num_cells nominal_capacity).voltage_load_disconnect
      = 3.00 * (num_cells : ℚ) ∧
    (battery_conf_init bat .BAT_TYPE_LFP num_cells nominal_capacity).voltage_load_reconnect
      = 3.15 * (num_cells : ℚ) ∧
    (battery_conf_init bat .BAT_TYPE_LFP num_cells nominal_capacity).topping_current_cutoff
      = nominal_capacity / 10 ∧
    (battery_conf_init bat .BAT_TYPE_LFP num_cells nominal_capacity).trickle_enabled
      = false ∧
    (battery_conf_init bat .BAT_TYPE_LFP num_cells nominal_capacity).equalization_enabled
      = false ∧
    (battery_conf_init bat .BAT_TYPE_LFP num_cells nominal_capacity).temperature_compensation
      = 0 ∧
    (battery_conf_init bat .BAT_TYPE_LFP num_cells nominal_capacity).charge_temp_min = 0 ∧
    (battery_conf_init bat .BAT_TYPE_LFP num_cells nominal_capacity).charge_current_max
      = nominal_capacity ∧
    (battery_conf_init bat .BAT_TYPE_LFP num_cells nominal_capacity).discharge_current_max
      = nominal_capacity ∧
    (battery_conf_init bat .BAT_TYPE_LFP num_cells nominal_capacity).charge_temp_max = 50 ∧
    (battery_conf_init bat .BAT_TYPE_LFP num_cells nominal_capacity).discharge_temp_min
      = -10 ∧
    (battery_conf_init bat .BAT_TYPE_LFP num_cells nominal_capacity).discharge_temp_max
      = 50 ∧
    (battery_conf_init bat .BAT_TYPE_LFP num_cells nominal_capacity).topping_duration
      = 7200 ∧
    (battery_conf_init bat .BAT_TYPE_LFP num_cells nominal_capacity).time_limit_recharge
      = 60 := by
  simp only [battery_conf_init, battery_conf_init_common]
  refine ⟨?_, ?_, ?_, ?_, ?_, ?_, ?_, ?_, ?_, ?_, ?_, ?_, ?_, ?_, ?_, ?_, ?_⟩ <;>
    first
    | rfl
    | (norm_num; done)
    | (norm_num; ring)

/-- C23 (counterexample): two prior contents lead to different profiles: a
prior wire resistance survives the flooded derivation, a prior trickle voltage
survives the LFP derivation, and a prior topping voltage survives the
derivation for the tag none. -/
theorem battery_conf_init_depends_on_prior :
    battery_conf_init prior_with_wire .BAT_TYPE_FLOODED 6 100
      ≠ battery_conf_init BatConf.zero .BAT_TYPE_FLOODED 6 100 ∧
    battery_conf_init prior_with_trickle .BAT_TYPE_LFP 4 100
      ≠ battery_conf_init BatConf.zero .BAT_TYPE_LFP 4 100 ∧
    battery_conf_init prior_with_topping .BAT_TYPE_NONE 0 100
      ≠ battery_conf_init BatConf.zero .BAT_TYPE_NONE 0 100 := by
  refine ⟨?_, ?_, ?_⟩
  · intro h
    have h2 := congrArg BatConf.wire_resistance h
    norm_num [battery_conf_init, battery_conf_init_common, prior_with_wire,
      BatConf.zero] at h2
  · intro h
    have h2 := congrArg BatConf.trickle_voltage h
    norm_num [battery_conf_init, battery_conf_init_common, prior_with_trickle,
      BatConf.zero] at h2
  · intro h
    have h2 := congrArg BatConf.topping_voltage h
    norm_num [battery_conf_init, battery_conf_init_common, prior_with_topping,
      BatConf.zero] at h2

/-- C23 (amended): for every cell count and capacity and any two prior
contents `p` and `q` of the profile struct: with a lead-acid chemistry the two
resulting profiles are equal in every field when `p` and `q` agree on
`wire_resistance`; with the LFP, NMC or NMC-HV chemistry they are equal in
every field when `p` and `q` agree on `wire_resistance`, `trickle_voltage`,
`trickle_recharge_time` and the five equalization parameters (voltage,
duration, current limit, trigger days, trigger deep cycles); and for every
chemistry tag the result keeps the prior `wire_resistance`. -/
theorem battery_conf_init_determined (type : BatType) (num_cells : Int)
    (nominal_capacity : ℚ) (p q : BatConf) (hwire : p.wire_resistance = q.wire_resistance) :
    (is_lead_acid type = true →
      battery_conf_init p type num_cells nominal_capacity
        = battery_conf_init q type num_cells nominal_capacity) ∧
    ((type = .BAT_TYPE_LFP ∨ type = .BAT_TYPE_NMC ∨ type = .BAT_TYPE_NMC_HV) →
      p.trickle_voltage = q.trickle_voltage →
      p.trickle_recharge_time = q.trickle_recharge_time →
      p.equalization_voltage = q.equalization_voltage →
      p.equalization_duration = q.equalization_duration →
      p.equalization_current_limit = q.equalization_current_limit →
      p.equalization_trigger_days = q.equalization_trigger_days →
      p.equalization_trigger_deep_cycles = q.equalization_trigger_deep_cycles →
      battery_conf_init p type num_cells nominal_capacity
        = battery_conf_init q type num_cells nominal_capacity) ∧
    (battery_conf_init p type num_cells nominal_capacity).wire_resistance
      = p.wire_resistance := by
  refine ⟨?_, ?_, ?_⟩
  · intro hla
    cases type <;> simp [is_lead_acid] at hla <;>
      simp [battery_conf_init, battery_conf_init_common, hwire]
  · intro ht h1 h2 h3 h4 h5 h6 h7
    rcases ht with ht | ht | ht <;> subst ht <;>
      simp [battery_conf_init, battery_conf_init_common, hwire, h1, h2, h3, h4, h5, h6, h7]
  · cases type <;> simp [battery_conf_init, battery_conf_init_common]

/-- Witness of C23 (amended): the AGM derivation from a zero-initialised
prior and from a prior with another topping voltage (the same wire
resistance) give the same profile. -/
theorem battery_conf_init_determined_witness :
    prior_with_topping.wire_resistance = BatConf.zero.wire_resistance ∧
    battery_conf_init prior_with_topping .BAT_TYPE_AGM 6 100
      = battery_conf_init BatConf.zero .BAT_TYPE_AGM 6 100 :=
  ⟨rfl, (battery_conf_init_determined .BAT_TYPE_AGM 6 100 prior_with_topping BatConf.zero
    rfl).1 rfl⟩

/-- C24 (counterexample): with the 4-cell 100 Ah LFP profile, from the
startup state, two estimator ticks under 20 A of charge followed by an
undervoltage disconnection at 11.8 V leave a state of health of -1/9000,
below 0. -/
theorem guard_run_soh_negative :
    lfp_4s_100Ah.nominal_capacity > 0 ∧
    GuardState.startup.charger.soh = 0 ∧
    GuardState.startup.charger.usable_capacity = 0 ∧
    GuardState.startup.charger.discharged_Ah = 0 ∧
    (guard_run lfp_4s_100Ah charged_then_drained
      GuardState.startup).charger.num_deep_discharges = 1 ∧
    (guard_run lfp_4s_100Ah charged_then_drained GuardState.startup).charger.soh
      = -1 / 9000 ∧
    (guard_run lfp_4s_100Ah charged_then_drained GuardState.startup).charger.soh < 0 := by
  have hsoh : (guard_run lfp_4s_100Ah charged_then_drained GuardState.startup).charger.soh
      = -1 / 9000 := by
    simp [guard_run, guard_step, update_soc, discharge_control, charged_then_drained,
      GuardState.startup, Charger.with_measurement, Charger.set_neg_current_limit,
      Charger.discharging, Charger.zero, lfp_4s_100Ah, battery_conf_init,
      battery_conf_init_common]
    norm_num
  refine ⟨?_, rfl, rfl, rfl, ?_, hsoh, ?_⟩
  · norm_num [lfp_4s_100Ah, battery_conf_init, battery_conf_init_common]
  · simp [guard_run, guard_step, update_soc, discharge_control, charged_then_drained,
      GuardState.startup, Charger.with_measurement, Charger.set_neg_current_limit,
      Charger.discharging, Charger.zero, lfp_4s_100Ah, battery_conf_init,
      battery_conf_init_common]
    norm_num
  · rw [hsoh]; norm_num

/-- One estimator or discharge guard tick maintains `soh_consistent`. -/
theorem soh_consistent_guard_step (bat_conf : BatConf) (n0 : Int) (st : GuardState)
    (t : GuardTick) (h : soh_consistent bat_conf n0 st) :
    soh_consistent bat_conf n0 (guard_step bat_conf st t) := by
  obtain ⟨h1, h2, h3⟩ := h
  cases t with
  | soc m =>
    simp only [guard_step, update_soc, soh_consistent]
    split_ifs <;> exact ⟨h1, h2, h3⟩
  | discharge m =>
    simp only [guard_step, discharge_control, soh_consistent]
    split_ifs <;>
      simp_all [Charger.with_measurement, Charger.set_neg_current_limit] <;>
      omega

/-- Every run of estimator and discharge guard ticks maintains
`soh_consistent`. -/
theorem soh_consistent_guard_run (bat_conf : BatConf) (n0 : Int) (ticks : List GuardTick) :
    ∀ st : GuardState, soh_consistent bat_conf n0 st →
      soh_consistent bat_conf n0 (guard_run bat_conf ticks st) := by
  induction ticks with
  | nil => intro st h; exact h
  | cons t ts ih =>
    intro st h
    simp only [guard_run]
    exact ih _ (soh_consistent_guard_step bat_conf n0 st t h)

/-- C24 (amended): starting from a state with `soh = 0` and `usable_capacity
= 0`, after every sequence of `update_soc` and `discharge_control` ticks with
arbitrary measurements, `soh` is 0 as long as no undervoltage disconnection
has occurred (the deep-discharge counter still has its initial value), and
`soh` always equals `usable_capacity / nominal_capacity`. -/
theorem guard_run_soh (bat_conf : BatConf) (ticks : List GuardTick) (st : GuardState)
    (hsoh : st.charger.soh = 0) (husable : st.charger.usable_capacity = 0) :
    ((guard_run bat_conf ticks st).charger.num_deep_discharges
        = st.charger.num_deep_discharges →
      (guard_run bat_conf ticks st).charger.soh = 0) ∧
    (guard_run bat_conf ticks st).charger.soh
      = (guard_run bat_conf ticks st).charger.usable_capacity / bat_conf.nominal_capacity := by
  have h0 : soh_consistent bat_conf st.charger.num_deep_discharges st := by
    refine ⟨le_refl _, fun _ => hsoh, ?_⟩
    rw [hsoh, husable, zero_div]
  have h := soh_consistent_guard_run bat_conf st.charger.num_deep_discharges ticks st h0
  exact ⟨h.2.1, h.2.2⟩

/-- Witness of C24 (amended): with the 4-cell 100 Ah LFP profile, from the
startup state, two estimator ticks under 20 A of charge leave `soh = 0`. -/
theorem guard_run_soh_witness :
    GuardState.startup.charger.soh = 0 ∧
    GuardState.startup.charger.usable_capacity = 0 ∧
    (guard_run lfp_4s_100Ah [.soc ⟨13, 20, 25⟩, .soc ⟨13, 20, 25⟩]
      GuardState.startup).charger.soh = 0 :=
  ⟨rfl, rfl,
   (guard_run_soh lfp_4s_100Ah [.soc ⟨13, 20, 25⟩, .soc ⟨13, 20, 25⟩] GuardState.startup
      rfl rfl).1
     (by norm_num [guard_run, guard_step, update_soc, GuardState.startup,
        Charger.with_measurement, Charger.discharging, Charger.zero])⟩

/-- C25 (failing input): with the 4-cell 100 Ah flooded lead-acid profile
(`trickle_recharge_time = 1800`), a charger in TOPPING whose
`time_target_voltage_reached` still has its startup value 0 enters TRICKLE at
uptime 10000; the tick at uptime 10001, with the bus at 8 V, returns to BULK
although only 1 s has passed since TRICKLE was entered. -/
theorem charge_run_trickle_leaves_after_one_second :
    Charger.topping_held.time_target_voltage_reached = 0 ∧
    (charge_run droop_none (trickle_entry_ticks.take 1)
      (Charger.topping_held, DeviceStatus.none)).1.state = .CHG_STATE_TRICKLE ∧
    (charge_run droop_none (trickle_entry_ticks.take 1)
      (Charger.topping_held, DeviceStatus.none)).1.time_state_changed = 10000 ∧
    (charge_run droop_none trickle_entry_ticks
      (Charger.topping_held, DeviceStatus.none)).1.state = .CHG_STATE_BULK ∧
    ¬ (10001 - (charge_run droop_none (trickle_entry_ticks.take 1)
        (Charger.topping_held, DeviceStatus.none)).1.time_state_changed
      > lead_acid_4s_100Ah.trickle_recharge_time) := by
  have h1 : (charge_run droop_none (trickle_entry_ticks.take 1)
      (Charger.topping_held, DeviceStatus.none)).1.state = .CHG_STATE_TRICKLE := by
    simp [charge_run, trickle_entry_ticks, charge_control, charge_temp_guard,
      charge_state_machine, topping_full_exit, enter_state, Charger.with_measurement,
      Charger.set_sink_voltage_bound, Charger.set_pos_current_limit, compensated_voltage,
      droop_none, Charger.topping_held, Charger.zero, lead_acid_4s_100Ah, battery_conf_init,
      battery_conf_init_common]
    norm_num
  have h2 : (charge_run droop_none (trickle_entry_ticks.take 1)
      (Charger.topping_held, DeviceStatus.none)).1.time_state_changed = 10000 := by
    simp [charge_run, trickle_entry_ticks, charge_control, charge_temp_guard,
      charge_state_machine, topping_full_exit, enter_state, Charger.with_measurement,
      Charger.set_sink_voltage_bound, Charger.set_pos_current_limit, compensated_voltage,
      droop_none, Charger.topping_held, Charger.zero, lead_acid_4s_100Ah, battery_conf_init,
      battery_conf_init_common]
    norm_num
  refine ⟨rfl, h1, h2, ?_, ?_⟩
  · simp [charge_run, trickle_entry_ticks, charge_control, charge_temp_guard,
      charge_state_machine, topping_full_exit, enter_state, Charger.with_measurement,
      Charger.set_sink_voltage_bound, Charger.set_pos_current_limit, compensated_voltage,
      droop_none, Charger.topping_held, Charger.zero, lead_acid_4s_100Ah, battery_conf_init,
      battery_conf_init_common]
    norm_num
  · rw [h2]
    simp [lead_acid_4s_100Ah, battery_conf_init, battery_conf_init_common]

/-- One `charge_control` tick maintains `full_latch_consistent`. -/
theorem full_latch_consistent_charge_control (droop_voltage : DcBus → ℚ → ℚ) (now : Int)
    (bat_conf : BatConf) (c : Charger) (dev_stat : DeviceStatus)
    (h : full_latch_consistent c) :
    full_latch_consistent (charge_control droop_voltage now bat_conf c dev_stat).1 := by
  obtain ⟨h1, h2⟩ := h
  by_cases hmax : c.bat_temperature > bat_conf.charge_temp_max
  · have g : ¬ c.bat_temperature < bat_conf.charge_temp_max - 1 := by
      intro h3; linarith
    simp [full_latch_consistent, charge_control, charge_temp_guard, charge_state_machine,
      enter_state, Charger.set_pos_current_limit, hmax, g]
  · by_cases hmin : c.bat_temperature < bat_conf.charge_temp_min
    · have g : ¬ c.bat_temperature > bat_conf.charge_temp_min + 1 := by
        intro h3; linarith
      simp [full_latch_consistent, charge_control, charge_temp_guard, charge_state_machine,
        enter_state, Charger.set_pos_current_limit, hmax, hmin, g]
    · simp only [full_latch_consistent, charge_control, charge_temp_guard, if_neg hmax,
        if_neg hmin, charge_state_machine]
      rcases hst : c.state with _ | _ | _ | _ | _
      · simp only []
        split_ifs <;>
          simp_all [enter_state, Charger.set_sink_voltage_bound,
            Charger.set_pos_current_limit]
      · simp only []
        split_ifs <;>
          simp_all [enter_state, Charger.set_sink_voltage_bound,
            Charger.set_pos_current_limit]
      · simp only [topping_full_exit]
        split_ifs <;>
          simp_all [enter_state, Charger.set_sink_voltage_bound,
            Charger.set_pos_current_limit]
      · simp only []
        split_ifs <;>
          simp_all [enter_state, Charger.set_sink_voltage_bound,
            Charger.set_pos_current_limit]
      · simp only []
        split_ifs <;>
          simp_all [enter_state, Charger.set_sink_voltage_bound,
            Charger.set_pos_current_limit]

/-- Every run of `charge_control` ticks maintains `full_latch_consistent`. -/
theorem full_latch_consistent_charge_run (droop_voltage : DcBus → ℚ → ℚ)
    (ticks : List ChargeTick) :
    ∀ st : Charger × DeviceStatus, full_latch_consistent st.1 →
      full_latch_consistent (charge_run droop_voltage ticks st).1 := by
  induction ticks with
  | nil => intro st h; exact h
  | cons t ts ih =>
    intro st h
    simp only [charge_run]
    apply ih
    apply full_latch_consistent_charge_control
    exact h

/-- C26: starting from state IDLE with `full = false`, after every sequence
of `charge_control` ticks with arbitrary profiles, measurements, temperatures
and uptimes, the state BULK or TOPPING implies `full = false` and the state
TRICKLE or EQUALIZATION implies `full = true`. -/
theorem charge_run_full_latch (droop_voltage : DcBus → ℚ → ℚ) (ticks : List ChargeTick)
    (c : Charger) (dev_stat : DeviceStatus)
    (hstate : c.state = .CHG_STATE_IDLE) (hfull : c.full = false) :
    (((charge_run droop_voltage ticks (c, dev_stat)).1.state = .CHG_STATE_BULK ∨
        (charge_run droop_voltage ticks (c, dev_stat)).1.state = .CHG_STATE_TOPPING) →
      (charge_run droop_voltage ticks (c, dev_stat)).1.full = false) ∧
    (((charge_run droop_voltage ticks (c, dev_stat)).1.state = .CHG_STATE_TRICKLE ∨
        (charge_run droop_voltage ticks (c, dev_stat)).1.state
          = .CHG_STATE_EQUALIZATION) →
      (charge_run droop_voltage ticks (c, dev_stat)).1.full = true) := by
  have _ := hfull
  apply full_latch_consistent_charge_run droop_voltage ticks (c, dev_stat)
  simp [full_latch_consistent, hstate]

/-- Witness of C26: from the charger at rest, the two ticks of the trickle
entry scenario. -/
theorem charge_run_full_latch_witness :
    Charger.zero.state = .CHG_STATE_IDLE ∧ Charger.zero.full = false ∧
    (((charge_run droop_none trickle_entry_ticks
          (Charger.zero, DeviceStatus.none)).1.state = .CHG_STATE_BULK ∨
        (charge_run droop_none trickle_entry_ticks
          (Charger.zero, DeviceStatus.none)).1.state = .CHG_STATE_TOPPING) →
      (charge_run droop_none trickle_entry_ticks
        (Charger.zero, DeviceStatus.none)).1.full = false) :=
  ⟨rfl, rfl,
   (charge_run_full_latch droop_none trickle_entry_ticks Charger.zero DeviceStatus.none
      rfl rfl).1⟩

/-- A `discharge_control` tick with discharge not permitted and the reconnect
condition not met returns the charger and the error flags unchanged. -/
theorem discharge_control_unchanged (bat_conf : BatConf) (c : Charger)
    (dev_stat : DeviceStatus) (hperm : ¬ c.port.neg_current_limit < 0)
    (hno : ¬ (c.port.bus.voltage ≥ (c.num_batteries : ℚ) *
        (bat_conf.voltage_load_reconnect - c.port.current * c.port.bus.droop_res)
      ∧ c.bat_temperature < bat_conf.discharge_temp_max - 1
      ∧ c.bat_temperature > bat_conf.discharge_temp_min + 1)) :
    discharge_control bat_conf c dev_stat = (c, dev_stat) := by
  simp only [discharge_control, if_neg hperm, if_neg hno]

/-- C27: for every profile with `voltage_load_reconnect ≥
voltage_load_disconnect` and `num_batteries ≥ 1`: if a `discharge_control`
tick with discharge permitted disconnects the load (undervoltage,
over-temperature or under-temperature), then a second `discharge_control`
tick on the same sample changes nothing: `neg_current_limit` stays 0 and the
error flags are those left by the first tick. -/
theorem discharge_control_no_chatter (bat_conf : BatConf) (c : Charger)
    (dev_stat : DeviceStatus)
    (hhyst : bat_conf.voltage_load_reconnect ≥ bat_conf.voltage_load_disconnect)
    (hnum : c.num_batteries ≥ 1)
    (hperm : c.port.neg_current_limit < 0)
    (hdisc : c.port.bus.voltage < (c.num_batteries : ℚ) *
        (bat_conf.voltage_load_disconnect - c.port.current * c.port.bus.droop_res) ∨
      c.bat_temperature > bat_conf.discharge_temp_max ∨
      c.bat_temperature < bat_conf.discharge_temp_min) :
    (discharge_control bat_conf c dev_stat).1.port.neg_current_limit = 0 ∧
    (discharge_control bat_conf (discharge_control bat_conf c dev_stat).1
      (discharge_control bat_conf c dev_stat).2).1.port.neg_current_limit = 0 ∧
    (discharge_control bat_conf (discharge_control bat_conf c dev_stat).1
      (discharge_control bat_conf c dev_stat).2).2 = (discharge_control bat_conf c dev_stat).2 ∧
    discharge_control bat_conf (discharge_control bat_conf c dev_stat).1
      (discharge_control bat_conf c dev_stat).2 = discharge_control bat_conf c dev_stat := by
  have hn : (1 : ℚ) ≤ (c.num_batteries : ℚ) := by exact_mod_cast hnum
  -- the reconnect condition fails on the sample that caused the disconnection
  have hno : ¬ (c.port.bus.voltage ≥ (c.num_batteries : ℚ) *
        (bat_conf.voltage_load_reconnect - c.port.current * c.port.bus.droop_res)
      ∧ c.bat_temperature < bat_conf.discharge_temp_max - 1
      ∧ c.bat_temperature > bat_conf.discharge_temp_min + 1) := by
    rintro ⟨hv, htmax, htmin⟩
    rcases hdisc with h | h | h
    · have : (c.num_batteries : ℚ) *
          (bat_conf.voltage_load_disconnect - c.port.current * c.port.bus.droop_res)
          ≤ (c.num_batteries : ℚ) *
          (bat_conf.voltage_load_reconnect - c.port.current * c.port.bus.droop_res) := by
        apply mul_le_mul_of_nonneg_left
        · linarith
        · linarith
      linarith
    · linarith
    · linarith
  -- after the first tick the limit is 0 and the sample is unchanged
  have key : ∀ c1 d1, discharge_control bat_conf c dev_stat = (c1, d1) →
      c1.port.neg_current_limit = 0 ∧ c1.port.bus = c.port.bus ∧
      c1.port.current = c.port.current ∧ c1.num_batteries = c.num_batteries ∧
      c1.bat_temperature = c.bat_temperature := by
    intro c1 d1 heq
    simp only [discharge_control, if_pos hperm] at heq
    split_ifs at heq with h1 h2 h3 h4
    · simp only [Prod.mk.injEq] at heq
      obtain ⟨rfl, -⟩ := heq
      simp [Charger.set_neg_current_limit]
    · simp only [Prod.mk.injEq] at heq
      obtain ⟨rfl, -⟩ := heq
      simp [Charger.set_neg_current_limit]
    · simp only [Prod.mk.injEq] at heq
      obtain ⟨rfl, -⟩ := heq
      simp [Charger.set_neg_current_limit]
    · simp only [Prod.mk.injEq] at heq
      obtain ⟨rfl, -⟩ := heq
      simp [Charger.set_neg_current_limit]
    · exfalso
      rcases hdisc with h | h | h
      · exact h1 h
      · exact h3 h
      · exact h4 h
  obtain ⟨k1, k2, k3, k4, k5⟩ := key (discharge_control bat_conf c dev_stat).1
    (discharge_control bat_conf c dev_stat).2 rfl
  have hperm2 : ¬ (discharge_control bat_conf c dev_stat).1.port.neg_current_limit < 0 := by
    rw [k1]; exact lt_irrefl 0
  have hno2 : ¬ ((discharge_control bat_conf c dev_stat).1.port.bus.voltage ≥
        ((discharge_control bat_conf c dev_stat).1.num_batteries : ℚ) *
        (bat_conf.voltage_load_reconnect -
          (discharge_control bat_conf c dev_stat).1.port.current *
            (discharge_control bat_conf c dev_stat).1.port.bus.droop_res)
      ∧ (discharge_control bat_conf c dev_stat).1.bat_temperature
          < bat_conf.discharge_temp_max - 1
      ∧ (discharge_control bat_conf c dev_stat).1.bat_temperature
          > bat_conf.discharge_temp_min + 1) := by
    rw [k2, k3, k4, k5]; exact hno
  have hsame : discharge_control bat_conf (discharge_control bat_conf c dev_stat).1
      (discharge_control bat_conf c dev_stat).2 = discharge_control bat_conf c dev_stat := by
    rw [discharge_control_unchanged bat_conf _ _ hperm2 hno2]
  refine ⟨k1, ?_, ?_, hsame⟩
  · rw [hsame]; exact k1
  · rw [hsame]

/-- Witness of C27: the undervoltage disconnection of scenario C (LFP, 11.8 V
against 12 V) repeated on the same sample. -/
theorem discharge_control_no_chatter_witness :
    (discharge_control lfp_4s_100Ah
      (discharge_control lfp_4s_100Ah (Charger.discharging 11.8 40) DeviceStatus.none).1
      (discharge_control lfp_4s_100Ah (Charger.discharging 11.8 40)
        DeviceStatus.none).2).1.port.neg_current_limit = 0 :=
  (discharge_control_no_chatter lfp_4s_100Ah (Charger.discharging 11.8 40) DeviceStatus.none
    (by norm_num [lfp_4s_100Ah, battery_conf_init, battery_conf_init_common])
    (by simp [Charger.discharging, Charger.zero])
    (by norm_num [Charger.discharging, Charger.zero])
    (Or.inl (by norm_num [Charger.discharging, Charger.zero, lfp_4s_100Ah,
      battery_conf_init, battery_conf_init_common]))).2.1

/-- C28: for every source and destination profile and every charger, after
`battery_conf_overwrite source destination charger` the call
`battery_conf_changed source destination` returns false. -/
theorem battery_conf_overwrite_then_unchanged (source destination : BatConf)
    (charger : Option Charger) :
    battery_conf_changed source (battery_conf_overwrite source destination charger).1
      = false := by
  simp only [battery_conf_overwrite, battery_conf_overwrite_conf]
  split_ifs <;> simp [battery_conf_changed]

/-- One `update_soc` call leaves the filtered value within [0, 10000],
whatever it was before. -/
theorem update_soc_filtered_range (bat_conf : BatConf) (f : Int) (c : Charger)
    (h : 0 ≤ f ∧ f ≤ 10000) :
    0 ≤ (update_soc bat_conf f c).1 ∧ (update_soc bat_conf f c).1 ≤ 10000 := by
  simp only [update_soc]
  split_ifs <;> simp_all

/-- Every sequence of `update_soc` calls leaves the filtered value within
[0, 10000]. -/
theorem update_soc_seq_filtered_range (bat_conf : BatConf) (samples : List Sample) :
    ∀ st : Int × Charger, (0 ≤ st.1 ∧ st.1 ≤ 10000) →
      0 ≤ (update_soc_seq bat_conf samples st).1 ∧
      (update_soc_seq bat_conf samples st).1 ≤ 10000 := by
  induction samples with
  | nil => intro st h; exact h
  | cons m ms ih =>
    intro st h
    simp only [update_soc_seq]
    exact ih _ (update_soc_filtered_range bat_conf st.1 _ h)

/-- Truncating division by 100 of an integer strictly between -100 and 100
is 0. -/
theorem tdiv_100_eq_zero (x : Int) (h1 : -100 < x) (h2 : x < 100) : Int.tdiv x 100 = 0 := by
  by_cases hx : 0 ≤ x
  · exact Int.tdiv_eq_zero_of_lt hx h2
  · have hneg : 0 ≤ -x := by omega
    have hlt : -x < 100 := by omega
    have h0 : Int.tdiv (-x) 100 = 0 := Int.tdiv_eq_zero_of_lt hneg hlt
    have h3 : Int.tdiv (-(-x)) 100 = -(Int.tdiv (-x) 100) := Int.neg_tdiv (-x) 100
    rw [neg_neg, h0] at h3
    simpa using h3

/-- The dead band for a filtered value within [0, 10000]: an `update_soc`
call with `|current| < 0.2` whose raw value differs from the filtered value by
less than 100 leaves the filtered value unchanged. -/
theorem update_soc_step_in_dead_band (bat_conf : BatConf) (f : Int) (c : Charger)
    (hrange : 0 ≤ f ∧ f ≤ 10000) (hcur : |c.port.current| < 0.2)
    (hband : |soc_raw bat_conf c - f| < 100) :
    (update_soc bat_conf f c).1 = f := by
  have hb := abs_lt.mp hband
  have hdiv : Int.tdiv (soc_raw bat_conf c - f) 100 = 0 :=
    tdiv_100_eq_zero _ hb.1 hb.2
  have hseed : ¬ (soc_raw bat_conf c > 500 ∧ f = 0) := by
    rintro ⟨h1, h2⟩
    have := hb.2
    omega
  obtain ⟨hlo, hhi⟩ := hrange
  have hhi2 : ¬ f > 10000 := by omega
  have hlo2 : ¬ f < 0 := by omega
  simp only [update_soc, if_pos hcur]
  simp only [soc_raw] at hdiv hseed
  simp only [if_neg hseed, hdiv, add_zero, if_neg hhi2, if_neg hlo2]

/-- C29: in every reachable call of `update_soc` (the filtered value starts at
0 and has gone through any sequence of earlier calls) with `|current| < 0.2`
in which the raw value and the filtered value differ by less than 100, the
filtered value is left unchanged (the seeding case needs a difference above
500 and cannot apply). -/
theorem update_soc_dead_band (bat_conf : BatConf) (samples : List Sample) (c0 c : Charger)
    (hcur : |c.port.current| < 0.2)
    (hband : |soc_raw bat_conf c - (update_soc_seq bat_conf samples (0, c0)).1| < 100) :
    (update_soc bat_conf (update_soc_seq bat_conf samples (0, c0)).1 c).1
      = (update_soc_seq bat_conf samples (0, c0)).1 := by
  apply update_soc_step_in_dead_band bat_conf _ c _ hcur hband
  have h0 : (0 : Int) ≤ ((0 : Int), c0).1 ∧ ((0 : Int), c0).1 ≤ 10000 :=
    ⟨le_refl 0, by simp⟩
  exact update_soc_seq_filtered_range bat_conf samples (0, c0) h0

/-- Witness of C29: with open-circuit references 0 V and 20 V the first
sample at 10 V seeds the filtered value with 5000; a following sample at
10.198 V (raw value 5099, 99 units away) leaves it at 5000. -/
theorem update_soc_dead_band_witness :
    (update_soc_seq ocv_0_20_conf [⟨10, 0⟩] (0, Charger.zero)).1 = 5000 ∧
    soc_raw ocv_0_20_conf (Charger.resting_at 10.198) = 5099 ∧
    (update_soc ocv_0_20_conf (update_soc_seq ocv_0_20_conf [⟨10, 0⟩] (0, Charger.zero)).1
      (Charger.resting_at 10.198)).1 = 5000 := by
  have hseq : (update_soc_seq ocv_0_20_conf [⟨10, 0⟩] (0, Charger.zero)).1 = 5000 := by
    simp [update_soc_seq, update_soc, float_to_int, Charger.with_sample, ocv_0_20_conf,
      BatConf.zero, Charger.zero]
    norm_num
  have hraw : soc_raw ocv_0_20_conf (Charger.resting_at 10.198) = 5099 := by
    simp [soc_raw, float_to_int, ocv_0_20_conf, BatConf.zero, Charger.resting_at,
      Charger.with_voltage, Charger.zero]
    norm_num
  have key := update_soc_dead_band ocv_0_20_conf [⟨10, 0⟩] Charger.zero
    (Charger.resting_at 10.198)
    (by norm_num [Charger.resting_at, Charger.with_voltage, Charger.zero])
    (by rw [hseq, hraw]; decide)
  exact ⟨hseq, hraw, key.trans hseq⟩

/-- C30: for every `charge_control` tick whose state before is BULK, TOPPING,
TRICKLE or EQUALIZATION and whose state after is IDLE, `pos_current_limit` is
0 after the tick. -/
theorem charge_control_idle_entry_switches_off (droop_voltage : DcBus → ℚ → ℚ) (now : Int)
    (bat_conf : BatConf) (c : Charger) (dev_stat : DeviceStatus)
    (hbefore : c.state = .CHG_STATE_BULK ∨ c.state = .CHG_STATE_TOPPING ∨
      c.state = .CHG_STATE_TRICKLE ∨ c.state = .CHG_STATE_EQUALIZATION)
    (hafter : (charge_control droop_voltage now bat_conf c dev_stat).1.state
      = .CHG_STATE_IDLE) :
    (charge_control droop_voltage now bat_conf c dev_stat).1.port.pos_current_limit = 0 := by
  by_cases hmax : c.bat_temperature > bat_conf.charge_temp_max
  · have g : ¬ c.bat_temperature < bat_conf.charge_temp_max - 1 := by
      intro h3; linarith
    simp [charge_control, charge_temp_guard, charge_state_machine, enter_state,
      Charger.set_pos_current_limit, hmax, g]
  · by_cases hmin : c.bat_temperature < bat_conf.charge_temp_min
    · have g : ¬ c.bat_temperature > bat_conf.charge_temp_min + 1 := by
        intro h3; linarith
      simp [charge_control, charge_temp_guard, charge_state_machine, enter_state,
        Charger.set_pos_current_limit, hmax, hmin, g]
    · simp only [charge_control, charge_temp_guard, if_neg hmax, if_neg hmin,
        charge_state_machine] at hafter ⊢
      rcases hbefore with hst | hst | hst | hst
      · simp only [hst] at hafter ⊢
        split_ifs at hafter ⊢ <;>
          simp_all [enter_state, Charger.set_sink_voltage_bound,
            Charger.set_pos_current_limit]
      · simp only [hst, topping_full_exit] at hafter ⊢
        split_ifs at hafter ⊢ <;>
          simp_all [enter_state, Charger.set_sink_voltage_bound,
            Charger.set_pos_current_limit]
      · simp only [hst] at hafter ⊢
        split_ifs at hafter ⊢ <;>
          simp_all [enter_state, Charger.set_sink_voltage_bound,
            Charger.set_pos_current_limit]
      · simp only [hst] at hafter ⊢
        split_ifs at hafter ⊢ <;>
          simp_all [enter_state, Charger.set_sink_voltage_bound,
            Charger.set_pos_current_limit]

/-- Witness of C30, scenario D: the 4-cell 100 Ah lead-acid profile in BULK
with a current limit of 100 A at 55 degC ends the tick in IDLE with a current
limit of 0. -/
theorem charge_control_idle_entry_switches_off_witness :
    (Charger.zero.in_state_at .CHG_STATE_BULK 55).state = .CHG_STATE_BULK ∧
    (charge_control droop_none 100 lead_acid_4s_100Ah
      (Charger.zero.in_state_at .CHG_STATE_BULK 55) DeviceStatus.none).1.state
        = .CHG_STATE_IDLE ∧
    (charge_control droop_none 100 lead_acid_4s_100Ah
      (Charger.zero.in_state_at .CHG_STATE_BULK 55)
      DeviceStatus.none).1.port.pos_current_limit = 0 := by
  have hidle : (charge_control droop_none 100 lead_acid_4s_100Ah
      (Charger.zero.in_state_at .CHG_STATE_BULK 55) DeviceStatus.none).1.state
        = .CHG_STATE_IDLE := by
    simp [charge_control, charge_temp_guard, charge_state_machine, enter_state,
      Charger.set_pos_current_limit, Charger.in_state_at, Charger.zero, lead_acid_4s_100Ah,
      battery_conf_init, battery_conf_init_common]
    norm_num
  exact ⟨rfl, hidle,
    charge_control_idle_entry_switches_off droop_none 100 lead_acid_4s_100Ah
      (Charger.zero.in_state_at .CHG_STATE_BULK 55) DeviceStatus.none (Or.inl rfl) hidle⟩

end ChargeController
